import Mathlib

set_option maxRecDepth 100000

/-!
# Verification of the AES block-cipher core (`src/aes/generic.rs`)

This file gives a shallow embedding in Lean 4 of the AES implementation of
the repository: the constant tables, the key schedule (`key_expansion`), the
four round transforms and their inverses, the single-block `encrypt` /
`decrypt` pipelines, and the three macro-generated cipher facades
(`ExpandedKey128` / `ExpandedKey192` / `ExpandedKey256`).

Rust `u8` values are modelled as `Fin 256`; `[u8; 16]` states as a 16-field
structure; `&[u8]` slices as `List (Fin 256)`.  Code paths that panic in
Rust (`assert!` in `key_expansion`, `copy_from_slice` on a slice of the
wrong length) are modelled as `Option.none`.
-/

namespace AesGeneric

/-- A Rust `u8`. -/
abbrev Byte := Fin 256

/-- Rust `u8` bitwise XOR (`^`).  XOR of two bytes is again a byte. -/
def bxor (a b : Byte) : Byte :=
  ⟨a.val ^^^ b.val, Nat.xor_lt_two_pow (n := 8) a.isLt b.isLt⟩

/-- The round constant word array `RCON` (`u32` values, all below 256). -/
def RCON : List Nat := [0x01, 0x02, 0x04, 0x08, 0x10, 0x20, 0x40, 0x80, 0x1b, 0x36]

def FORWARD_S_BOX : List Byte := [
  0x63, 0x7c, 0x77, 0x7b, 0xf2, 0x6b, 0x6f, 0xc5, 0x30, 0x01, 0x67, 0x2b, 0xfe, 0xd7, 0xab, 0x76,
  0xca, 0x82, 0xc9, 0x7d, 0xfa, 0x59, 0x47, 0xf0, 0xad, 0xd4, 0xa2, 0xaf, 0x9c, 0xa4, 0x72, 0xc0,
  0xb7, 0xfd, 0x93, 0x26, 0x36, 0x3f, 0xf7, 0xcc, 0x34, 0xa5, 0xe5, 0xf1, 0x71, 0xd8, 0x31, 0x15,
  0x04, 0xc7, 0x23, 0xc3, 0x18, 0x96, 0x05, 0x9a, 0x07, 0x12, 0x80, 0xe2, 0xeb, 0x27, 0xb2, 0x75,
  0x09, 0x83, 0x2c, 0x1a, 0x1b, 0x6e, 0x5a, 0xa0, 0x52, 0x3b, 0xd6, 0xb3, 0x29, 0xe3, 0x2f, 0x84,
  0x53, 0xd1, 0x00, 0xed, 0x20, 0xfc, 0xb1, 0x5b, 0x6a, 0xcb, 0xbe, 0x39, 0x4a, 0x4c, 0x58, 0xcf,
  0xd0, 0xef, 0xaa, 0xfb, 0x43, 0x4d, 0x33, 0x85, 0x45, 0xf9, 0x02, 0x7f, 0x50, 0x3c, 0x9f, 0xa8,
  0x51, 0xa3, 0x40, 0x8f, 0x92, 0x9d, 0x38, 0xf5, 0xbc, 0xb6, 0xda, 0x21, 0x10, 0xff, 0xf3, 0xd2,
  0xcd, 0x0c, 0x13, 0xec, 0x5f, 0x97, 0x44, 0x17, 0xc4, 0xa7, 0x7e, 0x3d, 0x64, 0x5d, 0x19, 0x73,
  0x60, 0x81, 0x4f, 0xdc, 0x22, 0x2a, 0x90, 0x88, 0x46, 0xee, 0xb8, 0x14, 0xde, 0x5e, 0x0b, 0xdb,
  0xe0, 0x32, 0x3a, 0x0a, 0x49, 0x06, 0x24, 0x5c, 0xc2, 0xd3, 0xac, 0x62, 0x91, 0x95, 0xe4, 0x79,
  0xe7, 0xc8, 0x37, 0x6d, 0x8d, 0xd5, 0x4e, 0xa9, 0x6c, 0x56, 0xf4, 0xea, 0x65, 0x7a, 0xae, 0x08,
  0xba, 0x78, 0x25, 0x2e, 0x1c, 0xa6, 0xb4, 0xc6, 0xe8, 0xdd, 0x74, 0x1f, 0x4b, 0xbd, 0x8b, 0x8a,
  0x70, 0x3e, 0xb5, 0x66, 0x48, 0x03, 0xf6, 0x0e, 0x61, 0x35, 0x57, 0xb9, 0x86, 0xc1, 0x1d, 0x9e,
  0xe1, 0xf8, 0x98, 0x11, 0x69, 0xd9, 0x8e, 0x94, 0x9b, 0x1e, 0x87, 0xe9, 0xce, 0x55, 0x28, 0xdf,
  0x8c, 0xa1, 0x89, 0x0d, 0xbf, 0xe6, 0x42, 0x68, 0x41, 0x99, 0x2d, 0x0f, 0xb0, 0x54, 0xbb, 0x16]

def REVERSE_S_BOX : List Byte := [
  0x52, 0x09, 0x6a, 0xd5, 0x30, 0x36, 0xa5, 0x38, 0xbf, 0x40, 0xa3, 0x9e, 0x81, 0xf3, 0xd7, 0xfb,
  0x7c, 0xe3, 0x39, 0x82, 0x9b, 0x2f, 0xff, 0x87, 0x34, 0x8e, 0x43, 0x44, 0xc4, 0xde, 0xe9, 0xcb,
  0x54, 0x7b, 0x94, 0x32, 0xa6, 0xc2, 0x23, 0x3d, 0xee, 0x4c, 0x95, 0x0b, 0x42, 0xfa, 0xc3, 0x4e,
  0x08, 0x2e, 0xa1, 0x66, 0x28, 0xd9, 0x24, 0xb2, 0x76, 0x5b, 0xa2, 0x49, 0x6d, 0x8b, 0xd1, 0x25,
  0x72, 0xf8, 0xf6, 0x64, 0x86, 0x68, 0x98, 0x16, 0xd4, 0xa4, 0x5c, 0xcc, 0x5d, 0x65, 0xb6, 0x92,
  0x6c, 0x70, 0x48, 0x50, 0xfd, 0xed, 0xb9, 0xda, 0x5e, 0x15, 0x46, 0x57, 0xa7, 0x8d, 0x9d, 0x84,
  0x90, 0xd8, 0xab, 0x00, 0x8c, 0xbc, 0xd3, 0x0a, 0xf7, 0xe4, 0x58, 0x05, 0xb8, 0xb3, 0x45, 0x06,
  0xd0, 0x2c, 0x1e, 0x8f, 0xca, 0x3f, 0x0f, 0x02, 0xc1, 0xaf, 0xbd, 0x03, 0x01, 0x13, 0x8a, 0x6b,
  0x3a, 0x91, 0x11, 0x41, 0x4f, 0x67, 0xdc, 0xea, 0x97, 0xf2, 0xcf, 0xce, 0xf0, 0xb4, 0xe6, 0x73,
  0x96, 0xac, 0x74, 0x22, 0xe7, 0xad, 0x35, 0x85, 0xe2, 0xf9, 0x37, 0xe8, 0x1c, 0x75, 0xdf, 0x6e,
  0x47, 0xf1, 0x1a, 0x71, 0x1d, 0x29, 0xc5, 0x89, 0x6f, 0xb7, 0x62, 0x0e, 0xaa, 0x18, 0xbe, 0x1b,
  0xfc, 0x56, 0x3e, 0x4b, 0xc6, 0xd2, 0x79, 0x20, 0x9a, 0xdb, 0xc0, 0xfe, 0x78, 0xcd, 0x5a, 0xf4,
  0x1f, 0xdd, 0xa8, 0x33, 0x88, 0x07, 0xc7, 0x31, 0xb1, 0x12, 0x10, 0x59, 0x27, 0x80, 0xec, 0x5f,
  0x60, 0x51, 0x7f, 0xa9, 0x19, 0xb5, 0x4a, 0x0d, 0x2d, 0xe5, 0x7a, 0x9f, 0x93, 0xc9, 0x9c, 0xef,
  0xa0, 0xe0, 0x3b, 0x4d, 0xae, 0x2a, 0xf5, 0xb0, 0xc8, 0xeb, 0xbb, 0x3c, 0x83, 0x53, 0x99, 0x61,
  0x17, 0x2b, 0x04, 0x7e, 0xba, 0x77, 0xd6, 0x26, 0xe1, 0x69, 0x14, 0x63, 0x55, 0x21, 0x0c, 0x7d]

def GF_MUL2 : List Byte := [
  0x00, 0x02, 0x04, 0x06, 0x08, 0x0a, 0x0c, 0x0e, 0x10, 0x12, 0x14, 0x16, 0x18, 0x1a, 0x1c, 0x1e,
  0x20, 0x22, 0x24, 0x26, 0x28, 0x2a, 0x2c, 0x2e, 0x30, 0x32, 0x34, 0x36, 0x38, 0x3a, 0x3c, 0x3e,
  0x40, 0x42, 0x44, 0x46, 0x48, 0x4a, 0x4c, 0x4e, 0x50, 0x52, 0x54, 0x56, 0x58, 0x5a, 0x5c, 0x5e,
  0x60, 0x62, 0x64, 0x66, 0x68, 0x6a, 0x6c, 0x6e, 0x70, 0x72, 0x74, 0x76, 0x78, 0x7a, 0x7c, 0x7e,
  0x80, 0x82, 0x84, 0x86, 0x88, 0x8a, 0x8c, 0x8e, 0x90, 0x92, 0x94, 0x96, 0x98, 0x9a, 0x9c, 0x9e,
  0xa0, 0xa2, 0xa4, 0xa6, 0xa8, 0xaa, 0xac, 0xae, 0xb0, 0xb2, 0xb4, 0xb6, 0xb8, 0xba, 0xbc, 0xbe,
  0xc0, 0xc2, 0xc4, 0xc6, 0xc8, 0xca, 0xcc, 0xce, 0xd0, 0xd2, 0xd4, 0xd6, 0xd8, 0xda, 0xdc, 0xde,
  0xe0, 0xe2, 0xe4, 0xe6, 0xe8, 0xea, 0xec, 0xee, 0xf0, 0xf2, 0xf4, 0xf6, 0xf8, 0xfa, 0xfc, 0xfe,
  0x1b, 0x19, 0x1f, 0x1d, 0x13, 0x11, 0x17, 0x15, 0x0b, 0x09, 0x0f, 0x0d, 0x03, 0x01, 0x07, 0x05,
  0x3b, 0x39, 0x3f, 0x3d, 0x33, 0x31, 0x37, 0x35, 0x2b, 0x29, 0x2f, 0x2d, 0x23, 0x21, 0x27, 0x25,
  0x5b, 0x59, 0x5f, 0x5d, 0x53, 0x51, 0x57, 0x55, 0x4b, 0x49, 0x4f, 0x4d, 0x43, 0x41, 0x47, 0x45,
  0x7b, 0x79, 0x7f, 0x7d, 0x73, 0x71, 0x77, 0x75, 0x6b, 0x69, 0x6f, 0x6d, 0x63, 0x61, 0x67, 0x65,
  0x9b, 0x99, 0x9f, 0x9d, 0x93, 0x91, 0x97, 0x95, 0x8b, 0x89, 0x8f, 0x8d, 0x83, 0x81, 0x87, 0x85,
  0xbb, 0xb9, 0xbf, 0xbd, 0xb3, 0xb1, 0xb7, 0xb5, 0xab, 0xa9, 0xaf, 0xad, 0xa3, 0xa1, 0xa7, 0xa5,
  0xdb, 0xd9, 0xdf, 0xdd, 0xd3, 0xd1, 0xd7, 0xd5, 0xcb, 0xc9, 0xcf, 0xcd, 0xc3, 0xc1, 0xc7, 0xc5,
  0xfb, 0xf9, 0xff, 0xfd, 0xf3, 0xf1, 0xf7, 0xf5, 0xeb, 0xe9, 0xef, 0xed, 0xe3, 0xe1, 0xe7, 0xe5]

def GF_MUL3 : List Byte := [
  0x00, 0x03, 0x06, 0x05, 0x0c, 0x0f, 0x0a, 0x09, 0x18, 0x1b, 0x1e, 0x1d, 0x14, 0x17, 0x12, 0x11,
  0x30, 0x33, 0x36, 0x35, 0x3c, 0x3f, 0x3a, 0x39, 0x28, 0x2b, 0x2e, 0x2d, 0x24, 0x27, 0x22, 0x21,
  0x60, 0x63, 0x66, 0x65, 0x6c, 0x6f, 0x6a, 0x69, 0x78, 0x7b, 0x7e, 0x7d, 0x74, 0x77, 0x72, 0x71,
  0x50, 0x53, 0x56, 0x55, 0x5c, 0x5f, 0x5a, 0x59, 0x48, 0x4b, 0x4e, 0x4d, 0x44, 0x47, 0x42, 0x41,
  0xc0, 0xc3, 0xc6, 0xc5, 0xcc, 0xcf, 0xca, 0xc9, 0xd8, 0xdb, 0xde, 0xdd, 0xd4, 0xd7, 0xd2, 0xd1,
  0xf0, 0xf3, 0xf6, 0xf5, 0xfc, 0xff, 0xfa, 0xf9, 0xe8, 0xeb, 0xee, 0xed, 0xe4, 0xe7, 0xe2, 0xe1,
  0xa0, 0xa3, 0xa6, 0xa5, 0xac, 0xaf, 0xaa, 0xa9, 0xb8, 0xbb, 0xbe, 0xbd, 0xb4, 0xb7, 0xb2, 0xb1,
  0x90, 0x93, 0x96, 0x95, 0x9c, 0x9f, 0x9a, 0x99, 0x88, 0x8b, 0x8e, 0x8d, 0x84, 0x87, 0x82, 0x81,
  0x9b, 0x98, 0x9d, 0x9e, 0x97, 0x94, 0x91, 0x92, 0x83, 0x80, 0x85, 0x86, 0x8f, 0x8c, 0x89, 0x8a,
  0xab, 0xa8, 0xad, 0xae, 0xa7, 0xa4, 0xa1, 0xa2, 0xb3, 0xb0, 0xb5, 0xb6, 0xbf, 0xbc, 0xb9, 0xba,
  0xfb, 0xf8, 0xfd, 0xfe, 0xf7, 0xf4, 0xf1, 0xf2, 0xe3, 0xe0, 0xe5, 0xe6, 0xef, 0xec, 0xe9, 0xea,
  0xcb, 0xc8, 0xcd, 0xce, 0xc7, 0xc4, 0xc1, 0xc2, 0xd3, 0xd0, 0xd5, 0xd6, 0xdf, 0xdc, 0xd9, 0xda,
  0x5b, 0x58, 0x5d, 0x5e, 0x57, 0x54, 0x51, 0x52, 0x43, 0x40, 0x45, 0x46, 0x4f, 0x4c, 0x49, 0x4a,
  0x6b, 0x68, 0x6d, 0x6e, 0x67, 0x64, 0x61, 0x62, 0x73, 0x70, 0x75, 0x76, 0x7f, 0x7c, 0x79, 0x7a,
  0x3b, 0x38, 0x3d, 0x3e, 0x37, 0x34, 0x31, 0x32, 0x23, 0x20, 0x25, 0x26, 0x2f, 0x2c, 0x29, 0x2a,
  0x0b, 0x08, 0x0d, 0x0e, 0x07, 0x04, 0x01, 0x02, 0x13, 0x10, 0x15, 0x16, 0x1f, 0x1c, 0x19, 0x1a]

def GF_MUL9 : List Byte := [
  0x00, 0x09, 0x12, 0x1b, 0x24, 0x2d, 0x36, 0x3f, 0x48, 0x41, 0x5a, 0x53, 0x6c, 0x65, 0x7e, 0x77,
  0x90, 0x99, 0x82, 0x8b, 0xb4, 0xbd, 0xa6, 0xaf, 0xd8, 0xd1, 0xca, 0xc3, 0xfc, 0xf5, 0xee, 0xe7,
  0x3b, 0x32, 0x29, 0x20, 0x1f, 0x16, 0x0d, 0x04, 0x73, 0x7a, 0x61, 0x68, 0x57, 0x5e, 0x45, 0x4c,
  0xab, 0xa2, 0xb9, 0xb0, 0x8f, 0x86, 0x9d, 0x94, 0xe3, 0xea, 0xf1, 0xf8, 0xc7, 0xce, 0xd5, 0xdc,
  0x76, 0x7f, 0x64, 0x6d, 0x52, 0x5b, 0x40, 0x49, 0x3e, 0x37, 0x2c, 0x25, 0x1a, 0x13, 0x08, 0x01,
  0xe6, 0xef, 0xf4, 0xfd, 0xc2, 0xcb, 0xd0, 0xd9, 0xae, 0xa7, 0xbc, 0xb5, 0x8a, 0x83, 0x98, 0x91,
  0x4d, 0x44, 0x5f, 0x56, 0x69, 0x60, 0x7b, 0x72, 0x05, 0x0c, 0x17, 0x1e, 0x21, 0x28, 0x33, 0x3a,
  0xdd, 0xd4, 0xcf, 0xc6, 0xf9, 0xf0, 0xeb, 0xe2, 0x95, 0x9c, 0x87, 0x8e, 0xb1, 0xb8, 0xa3, 0xaa,
  0xec, 0xe5, 0xfe, 0xf7, 0xc8, 0xc1, 0xda, 0xd3, 0xa4, 0xad, 0xb6, 0xbf, 0x80, 0x89, 0x92, 0x9b,
  0x7c, 0x75, 0x6e, 0x67, 0x58, 0x51, 0x4a, 0x43, 0x34, 0x3d, 0x26, 0x2f, 0x10, 0x19, 0x02, 0x0b,
  0xd7, 0xde, 0xc5, 0xcc, 0xf3, 0xfa, 0xe1, 0xe8, 0x9f, 0x96, 0x8d, 0x84, 0xbb, 0xb2, 0xa9, 0xa0,
  0x47, 0x4e, 0x55, 0x5c, 0x63, 0x6a, 0x71, 0x78, 0x0f, 0x06, 0x1d, 0x14, 0x2b, 0x22, 0x39, 0x30,
  0x9a, 0x93, 0x88, 0x81, 0xbe, 0xb7, 0xac, 0xa5, 0xd2, 0xdb, 0xc0, 0xc9, 0xf6, 0xff, 0xe4, 0xed,
  0x0a, 0x03, 0x18, 0x11, 0x2e, 0x27, 0x3c, 0x35, 0x42, 0x4b, 0x50, 0x59, 0x66, 0x6f, 0x74, 0x7d,
  0xa1, 0xa8, 0xb3, 0xba, 0x85, 0x8c, 0x97, 0x9e, 0xe9, 0xe0, 0xfb, 0xf2, 0xcd, 0xc4, 0xdf, 0xd6,
  0x31, 0x38, 0x23, 0x2a, 0x15, 0x1c, 0x07, 0x0e, 0x79, 0x70, 0x6b, 0x62, 0x5d, 0x54, 0x4f, 0x46]

def GF_MUL11 : List Byte := [
  0x00, 0x0b, 0x16, 0x1d, 0x2c, 0x27, 0x3a, 0x31, 0x58, 0x53, 0x4e, 0x45, 0x74, 0x7f, 0x62, 0x69,
  0xb0, 0xbb, 0xa6, 0xad, 0x9c, 0x97, 0x8a, 0x81, 0xe8, 0xe3, 0xfe, 0xf5, 0xc4, 0xcf, 0xd2, 0xd9,
  0x7b, 0x70, 0x6d, 0x66, 0x57, 0x5c, 0x41, 0x4a, 0x23, 0x28, 0x35, 0x3e, 0x0f, 0x04, 0x19, 0x12,
  0xcb, 0xc0, 0xdd, 0xd6, 0xe7, 0xec, 0xf1, 0xfa, 0x93, 0x98, 0x85, 0x8e, 0xbf, 0xb4, 0xa9, 0xa2,
  0xf6, 0xfd, 0xe0, 0xeb, 0xda, 0xd1, 0xcc, 0xc7, 0xae, 0xa5, 0xb8, 0xb3, 0x82, 0x89, 0x94, 0x9f,
  0x46, 0x4d, 0x50, 0x5b, 0x6a, 0x61, 0x7c, 0x77, 0x1e, 0x15, 0x08, 0x03, 0x32, 0x39, 0x24, 0x2f,
  0x8d, 0x86, 0x9b, 0x90, 0xa1, 0xaa, 0xb7, 0xbc, 0xd5, 0xde, 0xc3, 0xc8, 0xf9, 0xf2, 0xef, 0xe4,
  0x3d, 0x36, 0x2b, 0x20, 0x11, 0x1a, 0x07, 0x0c, 0x65, 0x6e, 0x73, 0x78, 0x49, 0x42, 0x5f, 0x54,
  0xf7, 0xfc, 0xe1, 0xea, 0xdb, 0xd0, 0xcd, 0xc6, 0xaf, 0xa4, 0xb9, 0xb2, 0x83, 0x88, 0x95, 0x9e,
  0x47, 0x4c, 0x51, 0x5a, 0x6b, 0x60, 0x7d, 0x76, 0x1f, 0x14, 0x09, 0x02, 0x33, 0x38, 0x25, 0x2e,
  0x8c, 0x87, 0x9a, 0x91, 0xa0, 0xab, 0xb6, 0xbd, 0xd4, 0xdf, 0xc2, 0xc9, 0xf8, 0xf3, 0xee, 0xe5,
  0x3c, 0x37, 0x2a, 0x21, 0x10, 0x1b, 0x06, 0x0d, 0x64, 0x6f, 0x72, 0x79, 0x48, 0x43, 0x5e, 0x55,
  0x01, 0x0a, 0x17, 0x1c, 0x2d, 0x26, 0x3b, 0x30, 0x59, 0x52, 0x4f, 0x44, 0x75, 0x7e, 0x63, 0x68,
  0xb1, 0xba, 0xa7, 0xac, 0x9d, 0x96, 0x8b, 0x80, 0xe9, 0xe2, 0xff, 0xf4, 0xc5, 0xce, 0xd3, 0xd8,
  0x7a, 0x71, 0x6c, 0x67, 0x56, 0x5d, 0x40, 0x4b, 0x22, 0x29, 0x34, 0x3f, 0x0e, 0x05, 0x18, 0x13,
  0xca, 0xc1, 0xdc, 0xd7, 0xe6, 0xed, 0xf0, 0xfb, 0x92, 0x99, 0x84, 0x8f, 0xbe, 0xb5, 0xa8, 0xa3]

def GF_MUL13 : List Byte := [
  0x00, 0x0d, 0x1a, 0x17, 0x34, 0x39, 0x2e, 0x23, 0x68, 0x65, 0x72, 0x7f, 0x5c, 0x51, 0x46, 0x4b,
  0xd0, 0xdd, 0xca, 0xc7, 0xe4, 0xe9, 0xfe, 0xf3, 0xb8, 0xb5, 0xa2, 0xaf, 0x8c, 0x81, 0x96, 0x9b,
  0xbb, 0xb6, 0xa1, 0xac, 0x8f, 0x82, 0x95, 0x98, 0xd3, 0xde, 0xc9, 0xc4, 0xe7, 0xea, 0xfd, 0xf0,
  0x6b, 0x66, 0x71, 0x7c, 0x5f, 0x52, 0x45, 0x48, 0x03, 0x0e, 0x19, 0x14, 0x37, 0x3a, 0x2d, 0x20,
  0x6d, 0x60, 0x77, 0x7a, 0x59, 0x54, 0x43, 0x4e, 0x05, 0x08, 0x1f, 0x12, 0x31, 0x3c, 0x2b, 0x26,
  0xbd, 0xb0, 0xa7, 0xaa, 0x89, 0x84, 0x93, 0x9e, 0xd5, 0xd8, 0xcf, 0xc2, 0xe1, 0xec, 0xfb, 0xf6,
  0xd6, 0xdb, 0xcc, 0xc1, 0xe2, 0xef, 0xf8, 0xf5, 0xbe, 0xb3, 0xa4, 0xa9, 0x8a, 0x87, 0x90, 0x9d,
  0x06, 0x0b, 0x1c, 0x11, 0x32, 0x3f, 0x28, 0x25, 0x6e, 0x63, 0x74, 0x79, 0x5a, 0x57, 0x40, 0x4d,
  0xda, 0xd7, 0xc0, 0xcd, 0xee, 0xe3, 0xf4, 0xf9, 0xb2, 0xbf, 0xa8, 0xa5, 0x86, 0x8b, 0x9c, 0x91,
  0x0a, 0x07, 0x10, 0x1d, 0x3e, 0x33, 0x24, 0x29, 0x62, 0x6f, 0x78, 0x75, 0x56, 0x5b, 0x4c, 0x41,
  0x61, 0x6c, 0x7b, 0x76, 0x55, 0x58, 0x4f, 0x42, 0x09, 0x04, 0x13, 0x1e, 0x3d, 0x30, 0x27, 0x2a,
  0xb1, 0xbc, 0xab, 0xa6, 0x85, 0x88, 0x9f, 0x92, 0xd9, 0xd4, 0xc3, 0xce, 0xed, 0xe0, 0xf7, 0xfa,
  0xb7, 0xba, 0xad, 0xa0, 0x83, 0x8e, 0x99, 0x94, 0xdf, 0xd2, 0xc5, 0xc8, 0xeb, 0xe6, 0xf1, 0xfc,
  0x67, 0x6a, 0x7d, 0x70, 0x53, 0x5e, 0x49, 0x44, 0x0f, 0x02, 0x15, 0x18, 0x3b, 0x36, 0x21, 0x2c,
  0x0c, 0x01, 0x16, 0x1b, 0x38, 0x35, 0x22, 0x2f, 0x64, 0x69, 0x7e, 0x73, 0x50, 0x5d, 0x4a, 0x47,
  0xdc, 0xd1, 0xc6, 0xcb, 0xe8, 0xe5, 0xf2, 0xff, 0xb4, 0xb9, 0xae, 0xa3, 0x80, 0x8d, 0x9a, 0x97]

def GF_MUL14 : List Byte := [
  0x00, 0x0e, 0x1c, 0x12, 0x38, 0x36, 0x24, 0x2a, 0x70, 0x7e, 0x6c, 0x62, 0x48, 0x46, 0x54, 0x5a,
  0xe0, 0xee, 0xfc, 0xf2, 0xd8, 0xd6, 0xc4, 0xca, 0x90, 0x9e, 0x8c, 0x82, 0xa8, 0xa6, 0xb4, 0xba,
  0xdb, 0xd5, 0xc7, 0xc9, 0xe3, 0xed, 0xff, 0xf1, 0xab, 0xa5, 0xb7, 0xb9, 0x93, 0x9d, 0x8f, 0x81,
  0x3b, 0x35, 0x27, 0x29, 0x03, 0x0d, 0x1f, 0x11, 0x4b, 0x45, 0x57, 0x59, 0x73, 0x7d, 0x6f, 0x61,
  0xad, 0xa3, 0xb1, 0xbf, 0x95, 0x9b, 0x89, 0x87, 0xdd, 0xd3, 0xc1, 0xcf, 0xe5, 0xeb, 0xf9, 0xf7,
  0x4d, 0x43, 0x51, 0x5f, 0x75, 0x7b, 0x69, 0x67, 0x3d, 0x33, 0x21, 0x2f, 0x05, 0x0b, 0x19, 0x17,
  0x76, 0x78, 0x6a, 0x64, 0x4e, 0x40, 0x52, 0x5c, 0x06, 0x08, 0x1a, 0x14, 0x3e, 0x30, 0x22, 0x2c,
  0x96, 0x98, 0x8a, 0x84, 0xae, 0xa0, 0xb2, 0xbc, 0xe6, 0xe8, 0xfa, 0xf4, 0xde, 0xd0, 0xc2, 0xcc,
  0x41, 0x4f, 0x5d, 0x53, 0x79, 0x77, 0x65, 0x6b, 0x31, 0x3f, 0x2d, 0x23, 0x09, 0x07, 0x15, 0x1b,
  0xa1, 0xaf, 0xbd, 0xb3, 0x99, 0x97, 0x85, 0x8b, 0xd1, 0xdf, 0xcd, 0xc3, 0xe9, 0xe7, 0xf5, 0xfb,
  0x9a, 0x94, 0x86, 0x88, 0xa2, 0xac, 0xbe, 0xb0, 0xea, 0xe4, 0xf6, 0xf8, 0xd2, 0xdc, 0xce, 0xc0,
  0x7a, 0x74, 0x66, 0x68, 0x42, 0x4c, 0x5e, 0x50, 0x0a, 0x04, 0x16, 0x18, 0x32, 0x3c, 0x2e, 0x20,
  0xec, 0xe2, 0xf0, 0xfe, 0xd4, 0xda, 0xc8, 0xc6, 0x9c, 0x92, 0x80, 0x8e, 0xa4, 0xaa, 0xb8, 0xb6,
  0x0c, 0x02, 0x10, 0x1e, 0x34, 0x3a, 0x28, 0x26, 0x7c, 0x72, 0x60, 0x6e, 0x44, 0x4a, 0x58, 0x56,
  0x37, 0x39, 0x2b, 0x25, 0x0f, 0x01, 0x13, 0x1d, 0x47, 0x49, 0x5b, 0x55, 0x7f, 0x71, 0x63, 0x6d,
  0xd7, 0xd9, 0xcb, 0xc5, 0xef, 0xe1, 0xf3, 0xfd, 0xa7, 0xa9, 0xbb, 0xb5, 0x9f, 0x91, 0x83, 0x8d]

/-- `FORWARD_S_BOX[x as usize]` — the forward substitution on one byte
(`sub_byte` in the source). -/
def sub_byte (x : Byte) : Byte := FORWARD_S_BOX.getD x.val 0

/-- `REVERSE_S_BOX[x as usize]` — the inverse substitution on one byte. -/
def inv_sub_byte (x : Byte) : Byte := REVERSE_S_BOX.getD x.val 0

/-- `GF_MUL2[v as usize]` (`gf_mul2` in the source). -/
def gf_mul2 (x : Byte) : Byte := GF_MUL2.getD x.val 0

/-- `GF_MUL3[v as usize]`. -/
def gf_mul3 (x : Byte) : Byte := GF_MUL3.getD x.val 0

/-- `GF_MUL9[v as usize]`. -/
def gf_mul9 (x : Byte) : Byte := GF_MUL9.getD x.val 0

/-- `GF_MUL11[v as usize]`. -/
def gf_mul11 (x : Byte) : Byte := GF_MUL11.getD x.val 0

/-- `GF_MUL13[v as usize]`. -/
def gf_mul13 (x : Byte) : Byte := GF_MUL13.getD x.val 0

/-- `GF_MUL14[v as usize]`. -/
def gf_mul14 (x : Byte) : Byte := GF_MUL14.getD x.val 0

/-! ## Words and the key schedule (`key_expansion`) -/

/-- A 32-bit word as its four little-endian bytes `(b0, b1, b2, b3)`,
exactly the view `u32::to_le_bytes` gives the source. -/
abbrev Word := Byte × Byte × Byte × Byte

/-- `u32::to_le_bytes` on a `u32` value. -/
def u32_le_bytes (x : Nat) : Word :=
  (⟨x % 256, Nat.mod_lt _ (by norm_num)⟩,
   ⟨x / 256 % 256, Nat.mod_lt _ (by norm_num)⟩,
   ⟨x / 65536 % 256, Nat.mod_lt _ (by norm_num)⟩,
   ⟨x / 16777216 % 256, Nat.mod_lt _ (by norm_num)⟩)

/-- Word `w[i]` of a byte buffer: the four bytes at offsets `4*i .. 4*i+3`
(the source reads `expanded_key[(i-1)*4 + 0..4]` and friends). -/
def wordOf (w : List Byte) (i : Nat) : Word :=
  (w.getD (4 * i) 0, w.getD (4 * i + 1) 0, w.getD (4 * i + 2) 0, w.getD (4 * i + 3) 0)

/-- `rot_word` of the source, on the little-endian byte view:
`RotWord([b0, b1, b2, b3]) = [b1, b2, b3, b0]`. -/
def rot_word (t : Word) : Word := (t.2.1, t.2.2.1, t.2.2.2, t.1)

/-- `sub_word` of the source: the forward S-box on each byte. -/
def sub_word (t : Word) : Word :=
  (sub_byte t.1, sub_byte t.2.1, sub_byte t.2.2.1, sub_byte t.2.2.2)

/-- Bytewise XOR of two words. -/
def word_xor (u v : Word) : Word :=
  (bxor u.1 v.1, bxor u.2.1 v.2.1, bxor u.2.2.1 v.2.2.1, bxor u.2.2.2 v.2.2.2)

/-- `RCON[j].to_le_bytes()`. -/
def rcon_word (j : Nat) : Word := u32_le_bytes (RCON.getD j 0)

/-- `temp` after the two conditional branches of the `key_expansion` loop at
word index `i`: the source computes, from `temp = w[i-1]`,
`a = sub_byte(b) ^ rcon[0], b = sub_byte(c) ^ rcon[1], c = sub_byte(d) ^
rcon[2], d = sub_byte(a) ^ rcon[3]` when `i % nk == 0` (that is,
`SubWord(RotWord(temp)) XOR Rcon[i/nk - 1]`), applies `sub_byte` to each
byte when `nk > 6 && i % nk == 4`, and leaves `temp` unchanged otherwise. -/
def ks_temp (nk i : Nat) (t : Word) : Word :=
  if i % nk = 0 then word_xor (sub_word (rot_word t)) (rcon_word (i / nk - 1))
  else if 6 < nk ∧ i % nk = 4 then sub_word t
  else t

/-- One iteration of the `key_expansion` fill loop: with the buffer holding
words `w[0..i)`, append `w[i] = w[i-nk] XOR temp`. -/
def ks_step (nk i : Nat) (w : List Byte) : List Byte :=
  let t := ks_temp nk i (wordOf w (i - 1))
  let k := wordOf w (i - nk)
  w ++ [bxor k.1 t.1, bxor k.2.1 t.2.1, bxor k.2.2.1 t.2.2.1, bxor k.2.2.2 t.2.2.2]

/-- The `for i in nk..(AES_NB * (nr + 1))` loop of `key_expansion`, with the
remaining iteration count as explicit fuel. -/
def ks_loop (nk : Nat) : Nat → Nat → List Byte → List Byte
  | _, 0, w => w
  | i, fuel + 1, w => ks_loop nk (i + 1) fuel (ks_step nk i w)

/-- `Nr` as the source's `match key.len()` derives it; the default arm is
`unreachable!` there and is only reached when the length assertion already
failed. -/
def nr_of (len : Nat) : Nat := if len = 16 then 10 else if len = 24 then 12 else 14

/-- The functional content of `key_expansion` once its assertions have
passed: the first `key.len()` bytes are the key (the source copies them into
the zeroed buffer), and the loop fills words `nk .. 4*(nr+1)`. -/
def expand_key (key : List Byte) : List Byte :=
  ks_loop (key.length / 4) (key.length / 4) (4 * (nr_of key.length + 1) - key.length / 4) key

/-- `key_expansion(key, expanded_key)` where the caller's buffer has length
`ek_len`.  `none` models the two `assert!` panics: key length not in
{16, 24, 32}, or buffer length different from `(nr + 1) * 16`. -/
def key_expansion (key : List Byte) (ek_len : Nat) : Option (List Byte) :=
  if key.length = 16 ∨ key.length = 24 ∨ key.length = 32 then
    if ek_len = (nr_of key.length + 1) * 16 then some (expand_key key)
    else none
  else none

/-! ## The 16-byte state and the round transforms -/

/-- The `[u8; 16]` state, byte `i` of the Rust array as field `bi`. -/
structure AesState where
  b0 : Byte
  b1 : Byte
  b2 : Byte
  b3 : Byte
  b4 : Byte
  b5 : Byte
  b6 : Byte
  b7 : Byte
  b8 : Byte
  b9 : Byte
  b10 : Byte
  b11 : Byte
  b12 : Byte
  b13 : Byte
  b14 : Byte
  b15 : Byte
  deriving DecidableEq

/-- `state.copy_from_slice(input)` for a 16-byte slice. -/
def AesState.ofList (l : List Byte) : AesState :=
  ⟨l.getD 0 0, l.getD 1 0, l.getD 2 0, l.getD 3 0, l.getD 4 0, l.getD 5 0,
   l.getD 6 0, l.getD 7 0, l.getD 8 0, l.getD 9 0, l.getD 10 0, l.getD 11 0,
   l.getD 12 0, l.getD 13 0, l.getD 14 0, l.getD 15 0⟩

/-- The state read back as the 16-byte array it models. -/
def AesState.toList (s : AesState) : List Byte :=
  [s.b0, s.b1, s.b2, s.b3, s.b4, s.b5, s.b6, s.b7,
   s.b8, s.b9, s.b10, s.b11, s.b12, s.b13, s.b14, s.b15]

/-- `state[i]` for an in-bounds index. -/
def AesState.get (s : AesState) (i : Fin 16) : Byte := s.toList.getD i.val 0

/-- `sub_bytes`: the forward S-box on each of the 16 state bytes. -/
def sub_bytes (s : AesState) : AesState :=
  ⟨sub_byte s.b0, sub_byte s.b1, sub_byte s.b2, sub_byte s.b3,
   sub_byte s.b4, sub_byte s.b5, sub_byte s.b6, sub_byte s.b7,
   sub_byte s.b8, sub_byte s.b9, sub_byte s.b10, sub_byte s.b11,
   sub_byte s.b12, sub_byte s.b13, sub_byte s.b14, sub_byte s.b15⟩

/-- `inv_sub_bytes`: the inverse S-box on each of the 16 state bytes. -/
def inv_sub_bytes (s : AesState) : AesState :=
  ⟨inv_sub_byte s.b0, inv_sub_byte s.b1, inv_sub_byte s.b2, inv_sub_byte s.b3,
   inv_sub_byte s.b4, inv_sub_byte s.b5, inv_sub_byte s.b6, inv_sub_byte s.b7,
   inv_sub_byte s.b8, inv_sub_byte s.b9, inv_sub_byte s.b10, inv_sub_byte s.b11,
   inv_sub_byte s.b12, inv_sub_byte s.b13, inv_sub_byte s.b14, inv_sub_byte s.b15⟩

/-- `shift_rows`: the source rotates row 1 left by 1 (`state[1] <- state[5]
<- state[9] <- state[13] <- state[1]`), row 2 left by 2, row 3 left by 3,
and leaves row 0 unchanged. -/
def shift_rows (s : AesState) : AesState :=
  ⟨s.b0, s.b5, s.b10, s.b15,
   s.b4, s.b9, s.b14, s.b3,
   s.b8, s.b13, s.b2, s.b7,
   s.b12, s.b1, s.b6, s.b11⟩

/-- `inv_shift_rows`: rows rotated right by their row index. -/
def inv_shift_rows (s : AesState) : AesState :=
  ⟨s.b0, s.b13, s.b10, s.b7,
   s.b4, s.b1, s.b14, s.b11,
   s.b8, s.b5, s.b2, s.b15,
   s.b12, s.b9, s.b6, s.b3⟩

/-- One column of `mix_columns`, exactly the source's four lines
(`c[0] = gf_mul2(a) ^ gf_mul3(b) ^ c ^ d`, and so on). -/
def mix_column (a b c d : Byte) : Word :=
  (bxor (bxor (bxor (gf_mul2 a) (gf_mul3 b)) c) d,
   bxor (bxor (bxor a (gf_mul2 b)) (gf_mul3 c)) d,
   bxor (bxor (bxor a b) (gf_mul2 c)) (gf_mul3 d),
   bxor (bxor (bxor (gf_mul3 a) b) c) (gf_mul2 d))

/-- One column of `inv_mix_columns`, exactly the source's four lines
(`c[0] = gf_mul14(a) ^ gf_mul11(b) ^ gf_mul13(c) ^ gf_mul9(d)`, ...). -/
def inv_mix_column (a b c d : Byte) : Word :=
  (bxor (bxor (bxor (gf_mul14 a) (gf_mul11 b)) (gf_mul13 c)) (gf_mul9 d),
   bxor (bxor (bxor (gf_mul9 a) (gf_mul14 b)) (gf_mul11 c)) (gf_mul13 d),
   bxor (bxor (bxor (gf_mul13 a) (gf_mul9 b)) (gf_mul14 c)) (gf_mul11 d),
   bxor (bxor (bxor (gf_mul11 a) (gf_mul13 b)) (gf_mul9 c)) (gf_mul14 d))

/-- `mix_columns`: each of the four columns through `mix_column`. -/
def mix_columns (s : AesState) : AesState :=
  ⟨(mix_column s.b0 s.b1 s.b2 s.b3).1,
   (mix_column s.b0 s.b1 s.b2 s.b3).2.1,
   (mix_column s.b0 s.b1 s.b2 s.b3).2.2.1,
   (mix_column s.b0 s.b1 s.b2 s.b3).2.2.2,
   (mix_column s.b4 s.b5 s.b6 s.b7).1,
   (mix_column s.b4 s.b5 s.b6 s.b7).2.1,
   (mix_column s.b4 s.b5 s.b6 s.b7).2.2.1,
   (mix_column s.b4 s.b5 s.b6 s.b7).2.2.2,
   (mix_column s.b8 s.b9 s.b10 s.b11).1,
   (mix_column s.b8 s.b9 s.b10 s.b11).2.1,
   (mix_column s.b8 s.b9 s.b10 s.b11).2.2.1,
   (mix_column s.b8 s.b9 s.b10 s.b11).2.2.2,
   (mix_column s.b12 s.b13 s.b14 s.b15).1,
   (mix_column s.b12 s.b13 s.b14 s.b15).2.1,
   (mix_column s.b12 s.b13 s.b14 s.b15).2.2.1,
   (mix_column s.b12 s.b13 s.b14 s.b15).2.2.2⟩

/-- `inv_mix_columns`: each of the four columns through `inv_mix_column`. -/
def inv_mix_columns (s : AesState) : AesState :=
  ⟨(inv_mix_column s.b0 s.b1 s.b2 s.b3).1,
   (inv_mix_column s.b0 s.b1 s.b2 s.b3).2.1,
   (inv_mix_column s.b0 s.b1 s.b2 s.b3).2.2.1,
   (inv_mix_column s.b0 s.b1 s.b2 s.b3).2.2.2,
   (inv_mix_column s.b4 s.b5 s.b6 s.b7).1,
   (inv_mix_column s.b4 s.b5 s.b6 s.b7).2.1,
   (inv_mix_column s.b4 s.b5 s.b6 s.b7).2.2.1,
   (inv_mix_column s.b4 s.b5 s.b6 s.b7).2.2.2,
   (inv_mix_column s.b8 s.b9 s.b10 s.b11).1,
   (inv_mix_column s.b8 s.b9 s.b10 s.b11).2.1,
   (inv_mix_column s.b8 s.b9 s.b10 s.b11).2.2.1,
   (inv_mix_column s.b8 s.b9 s.b10 s.b11).2.2.2,
   (inv_mix_column s.b12 s.b13 s.b14 s.b15).1,
   (inv_mix_column s.b12 s.b13 s.b14 s.b15).2.1,
   (inv_mix_column s.b12 s.b13 s.b14 s.b15).2.2.1,
   (inv_mix_column s.b12 s.b13 s.b14 s.b15).2.2.2⟩

/-- `add_round_key`: XOR the state with `rounds_key[round*16 .. round*16+16]`. -/
def add_round_key (s : AesState) (ek : List Byte) (round : Nat) : AesState :=
  ⟨bxor s.b0 (ek.getD (round * 16) 0),
   bxor s.b1 (ek.getD (round * 16 + 1) 0),
   bxor s.b2 (ek.getD (round * 16 + 2) 0),
   bxor s.b3 (ek.getD (round * 16 + 3) 0),
   bxor s.b4 (ek.getD (round * 16 + 4) 0),
   bxor s.b5 (ek.getD (round * 16 + 5) 0),
   bxor s.b6 (ek.getD (round * 16 + 6) 0),
   bxor s.b7 (ek.getD (round * 16 + 7) 0),
   bxor s.b8 (ek.getD (round * 16 + 8) 0),
   bxor s.b9 (ek.getD (round * 16 + 9) 0),
   bxor s.b10 (ek.getD (round * 16 + 10) 0),
   bxor s.b11 (ek.getD (round * 16 + 11) 0),
   bxor s.b12 (ek.getD (round * 16 + 12) 0),
   bxor s.b13 (ek.getD (round * 16 + 13) 0),
   bxor s.b14 (ek.getD (round * 16 + 14) 0),
   bxor s.b15 (ek.getD (round * 16 + 15) 0)⟩

/-! ## The block pipelines `encrypt` / `decrypt` -/

/-- The `for i in 1..nr` loop of `encrypt`, with explicit fuel. -/
def encrypt_loop (ek : List Byte) : Nat → Nat → AesState → AesState
  | _, 0, s => s
  | i, fuel + 1, s =>
      encrypt_loop ek (i + 1) fuel (add_round_key (mix_columns (shift_rows (sub_bytes s))) ek i)

/-- `encrypt(state, expanded_key, nr)` of the source. -/
def encrypt (s : AesState) (ek : List Byte) (nr : Nat) : AesState :=
  add_round_key (shift_rows (sub_bytes (encrypt_loop ek 1 (nr - 1) (add_round_key s ek 0)))) ek nr

/-- The `for i in 1..nr` loop of `decrypt`, with explicit fuel. -/
def decrypt_loop (ek : List Byte) (nr : Nat) : Nat → Nat → AesState → AesState
  | _, 0, s => s
  | i, fuel + 1, s =>
      decrypt_loop ek nr (i + 1) fuel
        (inv_sub_bytes (inv_shift_rows (inv_mix_columns (add_round_key s ek (nr - i)))))

/-- `decrypt(state, expanded_key, nr)` of the source. -/
def decrypt (s : AesState) (ek : List Byte) (nr : Nat) : AesState :=
  add_round_key
    (decrypt_loop ek nr 1 (nr - 1) (inv_sub_bytes (inv_shift_rows (add_round_key s ek nr)))) ek 0

/-! ## The macro-generated cipher facades -/

/-- `ExpandedKey128` (`impl_aes!(ExpandedKey128, AES128_NR, ...)`). -/
structure ExpandedKey128 where
  ek : List Byte

/-- `ExpandedKey128::new`: a `(10 + 1) * 16`-byte buffer through
`key_expansion`; `none` models the assertion panics. -/
def ExpandedKey128.new (key : List Byte) : Option ExpandedKey128 :=
  (key_expansion key ((10 + 1) * 16)).map ExpandedKey128.mk

/-- `ExpandedKey128::encrypt`: `state.copy_from_slice(input)` panics
(modelled `none`) unless the input slice has exactly 16 bytes. -/
def ExpandedKey128.encrypt (c : ExpandedKey128) (input : List Byte) : Option (List Byte) :=
  if input.length = 16 then some (AesGeneric.encrypt (AesState.ofList input) c.ek 10).toList
  else none

/-- `ExpandedKey128::decrypt`. -/
def ExpandedKey128.decrypt (c : ExpandedKey128) (input : List Byte) : Option (List Byte) :=
  if input.length = 16 then some (AesGeneric.decrypt (AesState.ofList input) c.ek 10).toList
  else none

/-- `ExpandedKey192`. -/
structure ExpandedKey192 where
  ek : List Byte

/-- `ExpandedKey192::new`. -/
def ExpandedKey192.new (key : List Byte) : Option ExpandedKey192 :=
  (key_expansion key ((12 + 1) * 16)).map ExpandedKey192.mk

/-- `ExpandedKey192::encrypt`. -/
def ExpandedKey192.encrypt (c : ExpandedKey192) (input : List Byte) : Option (List Byte) :=
  if input.length = 16 then some (AesGeneric.encrypt (AesState.ofList input) c.ek 12).toList
  else none

/-- `ExpandedKey192::decrypt`. -/
def ExpandedKey192.decrypt (c : ExpandedKey192) (input : List Byte) : Option (List Byte) :=
  if input.length = 16 then some (AesGeneric.decrypt (AesState.ofList input) c.ek 12).toList
  else none

/-- `ExpandedKey256`. -/
structure ExpandedKey256 where
  ek : List Byte

/-- `ExpandedKey256::new`. -/
def ExpandedKey256.new (key : List Byte) : Option ExpandedKey256 :=
  (key_expansion key ((14 + 1) * 16)).map ExpandedKey256.mk

/-- `ExpandedKey256::encrypt`. -/
def ExpandedKey256.encrypt (c : ExpandedKey256) (input : List Byte) : Option (List Byte) :=
  if input.length = 16 then some (AesGeneric.encrypt (AesState.ofList input) c.ek 14).toList
  else none

/-- `ExpandedKey256::decrypt`. -/
def ExpandedKey256.decrypt (c : ExpandedKey256) (input : List Byte) : Option (List Byte) :=
  if input.length = 16 then some (AesGeneric.decrypt (AesState.ofList input) c.ek 14).toList
  else none

/-! ## Byte-level lemmas -/

theorem bxor_val (a b : Byte) : (bxor a b).val = a.val ^^^ b.val := rfl

theorem bxor_assoc (a b c : Byte) : bxor (bxor a b) c = bxor a (bxor b c) :=
  Fin.ext (Nat.xor_assoc a.val b.val c.val)

theorem bxor_comm (a b : Byte) : bxor a b = bxor b a :=
  Fin.ext (Nat.xor_comm a.val b.val)

theorem bxor_left_comm (a b c : Byte) : bxor a (bxor b c) = bxor b (bxor a c) := by
  rw [← bxor_assoc, ← bxor_assoc, bxor_comm a b]

instance : Std.Associative bxor := ⟨bxor_assoc⟩

instance : Std.Commutative bxor := ⟨bxor_comm⟩

theorem bxor_zero (a : Byte) : bxor a 0 = a :=
  Fin.ext (Nat.xor_zero a.val)

theorem zero_bxor (a : Byte) : bxor 0 a = a :=
  Fin.ext (Nat.zero_xor a.val)

theorem bxor_self (a : Byte) : bxor a a = 0 :=
  Fin.ext (Nat.xor_self a.val)

theorem bxor_self_cancel_left (a b : Byte) : bxor a (bxor a b) = b :=
  Fin.ext (Nat.xor_cancel_left a.val b.val)

/-- XORing twice with the same byte is the identity. -/
theorem bxor_bxor_cancel (x k : Byte) : bxor (bxor x k) k = x :=
  Fin.ext (Nat.xor_cancel_right k.val x.val)

/-- `xtime`: multiplication by `x` in GF(2^8) with the AES reduction
polynomial `x^8 + x^4 + x^3 + x + 1` (`0x11b = 283`), on byte values.
This is a proof-side reformulation used to derive linearity of the
`GF_MUL2` table; the table itself stays the authority. -/
def xtime (a : Nat) : Nat := 2 * a ^^^ (if 128 ≤ a then 283 else 0)

set_option maxHeartbeats 4000000 in
/-- One exhaustive check over all 256 byte values: the `GF_MUL2` table
agrees with `xtime`; each of the other five multiplication tables is the
XOR of iterated `GF_MUL2` lookups prescribed by the binary expansion of its
constant (3 = 2+1, 9 = 8+1, 11 = 8+2+1, 13 = 8+4+1, 14 = 8+4+2); and the
two S-boxes are mutually inverse. -/
theorem byte_table_facts : ∀ x : Byte,
    ((gf_mul2 x).val = xtime x.val) ∧
    (gf_mul3 x = bxor (gf_mul2 x) x) ∧
    (gf_mul9 x = bxor (gf_mul2 (gf_mul2 (gf_mul2 x))) x) ∧
    (gf_mul11 x = bxor (bxor (gf_mul2 (gf_mul2 (gf_mul2 x))) (gf_mul2 x)) x) ∧
    (gf_mul13 x = bxor (bxor (gf_mul2 (gf_mul2 (gf_mul2 x))) (gf_mul2 (gf_mul2 x))) x) ∧
    (gf_mul14 x = bxor (bxor (gf_mul2 (gf_mul2 (gf_mul2 x))) (gf_mul2 (gf_mul2 x))) (gf_mul2 x)) ∧
    (inv_sub_byte (sub_byte x) = x) ∧
    (sub_byte (inv_sub_byte x) = x) := by decide

theorem gf_mul2_eq_xtime (x : Byte) : (gf_mul2 x).val = xtime x.val :=
  (byte_table_facts x).1

theorem gf_mul3_eq (x : Byte) : gf_mul3 x = bxor (gf_mul2 x) x :=
  (byte_table_facts x).2.1

theorem gf_mul9_eq (x : Byte) : gf_mul9 x = bxor (gf_mul2 (gf_mul2 (gf_mul2 x))) x :=
  (byte_table_facts x).2.2.1

theorem gf_mul11_eq (x : Byte) :
    gf_mul11 x = bxor (bxor (gf_mul2 (gf_mul2 (gf_mul2 x))) (gf_mul2 x)) x :=
  (byte_table_facts x).2.2.2.1

theorem gf_mul13_eq (x : Byte) :
    gf_mul13 x = bxor (bxor (gf_mul2 (gf_mul2 (gf_mul2 x))) (gf_mul2 (gf_mul2 x))) x :=
  (byte_table_facts x).2.2.2.2.1

theorem gf_mul14_eq (x : Byte) :
    gf_mul14 x = bxor (bxor (gf_mul2 (gf_mul2 (gf_mul2 x))) (gf_mul2 (gf_mul2 x))) (gf_mul2 x) :=
  (byte_table_facts x).2.2.2.2.2.1

theorem inv_sub_byte_sub_byte (x : Byte) : inv_sub_byte (sub_byte x) = x :=
  (byte_table_facts x).2.2.2.2.2.2.1

theorem sub_byte_inv_sub_byte (x : Byte) : sub_byte (inv_sub_byte x) = x :=
  (byte_table_facts x).2.2.2.2.2.2.2

theorem two_mul_xor (a b : Nat) : 2 * (a ^^^ b) = 2 * a ^^^ 2 * b := by
  have h2 : ∀ x : Nat, 2 * x = x <<< 1 := by
    intro x
    rw [Nat.shiftLeft_eq, pow_one, Nat.mul_comm]
  rw [h2, h2, h2]
  apply Nat.eq_of_testBit_eq
  intro i
  simp only [Nat.testBit_shiftLeft, Nat.testBit_xor]
  cases h : decide (1 ≤ i) <;> simp

/-- For byte values, bit 7 decides whether the value is at least 128. -/
theorem testBit_seven {x : Nat} (h : x < 256) : x.testBit 7 = decide (128 ≤ x) := by
  rw [Nat.testBit_to_div_mod]
  rcases Nat.lt_or_ge x 128 with h1 | h1
  · have hd : x / 2 ^ 7 = 0 := Nat.div_eq_of_lt h1
    rw [hd]
    simp [Nat.not_le.mpr h1]
  · have hd : x / 2 ^ 7 = 1 := by
      have h128 : (2 : Nat) ^ 7 = 128 := by norm_num
      rw [h128]
      omega
    rw [hd]
    simp [h1]

/-- `xtime` distributes over XOR of byte values. -/
theorem xtime_xor {a b : Nat} (ha : a < 256) (hb : b < 256) :
    xtime (a ^^^ b) = xtime a ^^^ xtime b := by
  have hab : a ^^^ b < 256 := Nat.xor_lt_two_pow (n := 8) ha hb
  have hbit : (decide (128 ≤ (a ^^^ b))) = ((decide (128 ≤ a)).xor (decide (128 ≤ b))) := by
    rw [← testBit_seven hab, ← testBit_seven ha, ← testBit_seven hb, Nat.testBit_xor]
  have hC : (if 128 ≤ a ^^^ b then 283 else 0) =
      ((if 128 ≤ a then 283 else 0) ^^^ (if 128 ≤ b then 283 else 0) : Nat) := by
    by_cases h1 : 128 ≤ a <;> by_cases h2 : 128 ≤ b <;>
      simp [h1, h2] at hbit ⊢ <;> simp [hbit]
  unfold xtime
  rw [two_mul_xor, hC]
  ac_rfl

/-- The `GF_MUL2` lookup is linear over XOR. -/
theorem gf_mul2_bxor (x y : Byte) : gf_mul2 (bxor x y) = bxor (gf_mul2 x) (gf_mul2 y) := by
  apply Fin.ext
  rw [bxor_val, gf_mul2_eq_xtime, gf_mul2_eq_xtime, gf_mul2_eq_xtime, bxor_val]
  exact xtime_xor x.isLt y.isLt

/-! ## Column-level inverse lemmas -/

theorem gf_mul3_bxor (x y : Byte) : gf_mul3 (bxor x y) = bxor (gf_mul3 x) (gf_mul3 y) := by
  simp only [gf_mul3_eq, gf_mul2_bxor]
  ac_rfl

theorem gf_mul9_bxor (x y : Byte) : gf_mul9 (bxor x y) = bxor (gf_mul9 x) (gf_mul9 y) := by
  simp only [gf_mul9_eq, gf_mul2_bxor]
  ac_rfl

theorem gf_mul11_bxor (x y : Byte) : gf_mul11 (bxor x y) = bxor (gf_mul11 x) (gf_mul11 y) := by
  simp only [gf_mul11_eq, gf_mul2_bxor]
  ac_rfl

theorem gf_mul13_bxor (x y : Byte) : gf_mul13 (bxor x y) = bxor (gf_mul13 x) (gf_mul13 y) := by
  simp only [gf_mul13_eq, gf_mul2_bxor]
  ac_rfl

theorem gf_mul14_bxor (x y : Byte) : gf_mul14 (bxor x y) = bxor (gf_mul14 x) (gf_mul14 y) := by
  simp only [gf_mul14_eq, gf_mul2_bxor]
  ac_rfl

theorem gf_mul2_zero : gf_mul2 0 = 0 := rfl

theorem gf_mul3_zero : gf_mul3 0 = 0 := rfl

theorem gf_mul9_zero : gf_mul9 0 = 0 := rfl

theorem gf_mul11_zero : gf_mul11 0 = 0 := rfl

theorem gf_mul13_zero : gf_mul13 0 = 0 := rfl

theorem gf_mul14_zero : gf_mul14 0 = 0 := rfl

/-- `mix_column` on a word given as a 4-tuple. -/
def mix_word (w : Word) : Word := mix_column w.1 w.2.1 w.2.2.1 w.2.2.2

/-- `inv_mix_column` on a word given as a 4-tuple. -/
def inv_mix_word (w : Word) : Word := inv_mix_column w.1 w.2.1 w.2.2.1 w.2.2.2

theorem mix_word_xor (u v : Word) :
    mix_word (word_xor u v) = word_xor (mix_word u) (mix_word v) := by
  rcases u with ⟨a1, b1, c1, d1⟩
  rcases v with ⟨a2, b2, c2, d2⟩
  simp only [mix_word, word_xor, mix_column, gf_mul2_bxor, gf_mul3_bxor]
  simp only [Prod.mk.injEq]
  refine ⟨?_, ?_, ?_, ?_⟩ <;> ac_rfl

theorem inv_mix_word_xor (u v : Word) :
    inv_mix_word (word_xor u v) = word_xor (inv_mix_word u) (inv_mix_word v) := by
  rcases u with ⟨a1, b1, c1, d1⟩
  rcases v with ⟨a2, b2, c2, d2⟩
  simp only [inv_mix_word, word_xor, inv_mix_column, gf_mul9_bxor, gf_mul11_bxor,
    gf_mul13_bxor, gf_mul14_bxor]
  simp only [Prod.mk.injEq]
  refine ⟨?_, ?_, ?_, ?_⟩ <;> ac_rfl

/-- Every word is the XOR of its four single-byte words. -/
theorem word_decomp (a b c d : Byte) :
    (a, b, c, d) =
      word_xor (a, 0, 0, 0) (word_xor (0, b, 0, 0) (word_xor (0, 0, c, 0) (0, 0, 0, d))) := by
  simp only [word_xor, bxor_zero, zero_bxor]

theorem inv_mix_mix_base_a (x : Byte) :
    inv_mix_word (mix_word (x, 0, 0, 0)) = (x, 0, 0, 0) := by
  simp only [mix_word, inv_mix_word, mix_column, inv_mix_column, gf_mul2_zero, gf_mul3_zero,
    bxor_zero, zero_bxor]
  simp only [gf_mul3_eq]
  simp only [gf_mul14_eq, gf_mul13_eq, gf_mul11_eq, gf_mul9_eq]
  simp only [gf_mul2_bxor]
  simp only [Prod.mk.injEq]
  refine ⟨?_, ?_, ?_, ?_⟩ <;>
    simp only [bxor_assoc, bxor_comm, bxor_left_comm, bxor_self, bxor_self_cancel_left,
      bxor_zero, zero_bxor]

theorem inv_mix_mix_base_b (x : Byte) :
    inv_mix_word (mix_word (0, x, 0, 0)) = (0, x, 0, 0) := by
  simp only [mix_word, inv_mix_word, mix_column, inv_mix_column, gf_mul2_zero, gf_mul3_zero,
    bxor_zero, zero_bxor]
  simp only [gf_mul3_eq]
  simp only [gf_mul14_eq, gf_mul13_eq, gf_mul11_eq, gf_mul9_eq]
  simp only [gf_mul2_bxor]
  simp only [Prod.mk.injEq]
  refine ⟨?_, ?_, ?_, ?_⟩ <;>
    simp only [bxor_assoc, bxor_comm, bxor_left_comm, bxor_self, bxor_self_cancel_left,
      bxor_zero, zero_bxor]

theorem inv_mix_mix_base_c (x : Byte) :
    inv_mix_word (mix_word (0, 0, x, 0)) = (0, 0, x, 0) := by
  simp only [mix_word, inv_mix_word, mix_column, inv_mix_column, gf_mul2_zero, gf_mul3_zero,
    bxor_zero, zero_bxor]
  simp only [gf_mul3_eq]
  simp only [gf_mul14_eq, gf_mul13_eq, gf_mul11_eq, gf_mul9_eq]
  simp only [gf_mul2_bxor]
  simp only [Prod.mk.injEq]
  refine ⟨?_, ?_, ?_, ?_⟩ <;>
    simp only [bxor_assoc, bxor_comm, bxor_left_comm, bxor_self, bxor_self_cancel_left,
      bxor_zero, zero_bxor]

theorem inv_mix_mix_base_d (x : Byte) :
    inv_mix_word (mix_word (0, 0, 0, x)) = (0, 0, 0, x) := by
  simp only [mix_word, inv_mix_word, mix_column, inv_mix_column, gf_mul2_zero, gf_mul3_zero,
    bxor_zero, zero_bxor]
  simp only [gf_mul3_eq]
  simp only [gf_mul14_eq, gf_mul13_eq, gf_mul11_eq, gf_mul9_eq]
  simp only [gf_mul2_bxor]
  simp only [Prod.mk.injEq]
  refine ⟨?_, ?_, ?_, ?_⟩ <;>
    simp only [bxor_assoc, bxor_comm, bxor_left_comm, bxor_self, bxor_self_cancel_left,
      bxor_zero, zero_bxor]

theorem mix_inv_mix_base_a (x : Byte) :
    mix_word (inv_mix_word (x, 0, 0, 0)) = (x, 0, 0, 0) := by
  simp only [mix_word, inv_mix_word, mix_column, inv_mix_column, gf_mul9_zero, gf_mul11_zero,
    gf_mul13_zero, gf_mul14_zero, bxor_zero, zero_bxor]
  simp only [gf_mul3_eq]
  simp only [gf_mul14_eq, gf_mul13_eq, gf_mul11_eq, gf_mul9_eq]
  simp only [gf_mul2_bxor]
  simp only [Prod.mk.injEq]
  refine ⟨?_, ?_, ?_, ?_⟩ <;>
    simp only [bxor_assoc, bxor_comm, bxor_left_comm, bxor_self, bxor_self_cancel_left,
      bxor_zero, zero_bxor]

theorem mix_inv_mix_base_b (x : Byte) :
    mix_word (inv_mix_word (0, x, 0, 0)) = (0, x, 0, 0) := by
  simp only [mix_word, inv_mix_word, mix_column, inv_mix_column, gf_mul9_zero, gf_mul11_zero,
    gf_mul13_zero, gf_mul14_zero, bxor_zero, zero_bxor]
  simp only [gf_mul3_eq]
  simp only [gf_mul14_eq, gf_mul13_eq, gf_mul11_eq, gf_mul9_eq]
  simp only [gf_mul2_bxor]
  simp only [Prod.mk.injEq]
  refine ⟨?_, ?_, ?_, ?_⟩ <;>
    simp only [bxor_assoc, bxor_comm, bxor_left_comm, bxor_self, bxor_self_cancel_left,
      bxor_zero, zero_bxor]

theorem mix_inv_mix_base_c (x : Byte) :
    mix_word (inv_mix_word (0, 0, x, 0)) = (0, 0, x, 0) := by
  simp only [mix_word, inv_mix_word, mix_column, inv_mix_column, gf_mul9_zero, gf_mul11_zero,
    gf_mul13_zero, gf_mul14_zero, bxor_zero, zero_bxor]
  simp only [gf_mul3_eq]
  simp only [gf_mul14_eq, gf_mul13_eq, gf_mul11_eq, gf_mul9_eq]
  simp only [gf_mul2_bxor]
  simp only [Prod.mk.injEq]
  refine ⟨?_, ?_, ?_, ?_⟩ <;>
    simp only [bxor_assoc, bxor_comm, bxor_left_comm, bxor_self, bxor_self_cancel_left,
      bxor_zero, zero_bxor]

theorem mix_inv_mix_base_d (x : Byte) :
    mix_word (inv_mix_word (0, 0, 0, x)) = (0, 0, 0, x) := by
  simp only [mix_word, inv_mix_word, mix_column, inv_mix_column, gf_mul9_zero, gf_mul11_zero,
    gf_mul13_zero, gf_mul14_zero, bxor_zero, zero_bxor]
  simp only [gf_mul3_eq]
  simp only [gf_mul14_eq, gf_mul13_eq, gf_mul11_eq, gf_mul9_eq]
  simp only [gf_mul2_bxor]
  simp only [Prod.mk.injEq]
  refine ⟨?_, ?_, ?_, ?_⟩ <;>
    simp only [bxor_assoc, bxor_comm, bxor_left_comm, bxor_self, bxor_self_cancel_left,
      bxor_zero, zero_bxor]

/-- `inv_mix_column` undoes `mix_column` on every word: decompose the word
into its four single-byte words, use linearity of both maps, and the four
single-byte cases. -/
theorem inv_mix_word_mix_word (w : Word) : inv_mix_word (mix_word w) = w := by
  rcases w with ⟨a, b, c, d⟩
  rw [word_decomp a b c d]
  rw [mix_word_xor, inv_mix_word_xor, mix_word_xor, inv_mix_word_xor,
    mix_word_xor, inv_mix_word_xor]
  rw [inv_mix_mix_base_a, inv_mix_mix_base_b, inv_mix_mix_base_c, inv_mix_mix_base_d]

/-- `mix_column` undoes `inv_mix_column` on every word. -/
theorem mix_word_inv_mix_word (w : Word) : mix_word (inv_mix_word w) = w := by
  rcases w with ⟨a, b, c, d⟩
  rw [word_decomp a b c d]
  rw [inv_mix_word_xor, mix_word_xor, inv_mix_word_xor, mix_word_xor,
    inv_mix_word_xor, mix_word_xor]
  rw [mix_inv_mix_base_a, mix_inv_mix_base_b, mix_inv_mix_base_c, mix_inv_mix_base_d]

/-! ## State-level inverse lemmas -/

/-- `add_round_key` is an involution for any expanded key and round. -/
theorem add_round_key_add_round_key (s : AesState) (ek : List Byte) (r : Nat) :
    add_round_key (add_round_key s ek r) ek r = s := by
  simp only [add_round_key, bxor_bxor_cancel]

/-- `inv_shift_rows` undoes `shift_rows`. -/
theorem inv_shift_rows_shift_rows (s : AesState) : inv_shift_rows (shift_rows s) = s := rfl

/-- `shift_rows` undoes `inv_shift_rows`. -/
theorem shift_rows_inv_shift_rows (s : AesState) : shift_rows (inv_shift_rows s) = s := rfl

/-- `inv_sub_bytes` undoes `sub_bytes`. -/
theorem inv_sub_bytes_sub_bytes (s : AesState) : inv_sub_bytes (sub_bytes s) = s := by
  simp only [sub_bytes, inv_sub_bytes, inv_sub_byte_sub_byte]

/-- `sub_bytes` undoes `inv_sub_bytes`. -/
theorem sub_bytes_inv_sub_bytes (s : AesState) : sub_bytes (inv_sub_bytes s) = s := by
  simp only [sub_bytes, inv_sub_bytes, sub_byte_inv_sub_byte]

/-- `inv_mix_columns` undoes `mix_columns` on every state. -/
theorem inv_mix_columns_mix_columns (s : AesState) : inv_mix_columns (mix_columns s) = s := by
  have h1 := inv_mix_word_mix_word (s.b0, s.b1, s.b2, s.b3)
  have h2 := inv_mix_word_mix_word (s.b4, s.b5, s.b6, s.b7)
  have h3 := inv_mix_word_mix_word (s.b8, s.b9, s.b10, s.b11)
  have h4 := inv_mix_word_mix_word (s.b12, s.b13, s.b14, s.b15)
  simp only [mix_word, inv_mix_word] at h1 h2 h3 h4
  simp only [mix_columns, inv_mix_columns]
  rw [h1, h2, h3, h4]

/-- `mix_columns` undoes `inv_mix_columns` on every state. -/
theorem mix_columns_inv_mix_columns (s : AesState) : mix_columns (inv_mix_columns s) = s := by
  have h1 := mix_word_inv_mix_word (s.b0, s.b1, s.b2, s.b3)
  have h2 := mix_word_inv_mix_word (s.b4, s.b5, s.b6, s.b7)
  have h3 := mix_word_inv_mix_word (s.b8, s.b9, s.b10, s.b11)
  have h4 := mix_word_inv_mix_word (s.b12, s.b13, s.b14, s.b15)
  simp only [mix_word, inv_mix_word] at h1 h2 h3 h4
  simp only [mix_columns, inv_mix_columns]
  rw [h1, h2, h3, h4]

/-! ## Round-loop cancellation and the block round-trip -/

/-- Peeling the last round off the encryption loop. -/
theorem encrypt_loop_snoc (ek : List Byte) :
    ∀ (n i : Nat) (s : AesState),
      encrypt_loop ek i (n + 1) s =
        add_round_key (mix_columns (shift_rows (sub_bytes (encrypt_loop ek i n s)))) ek (i + n) := by
  intro n
  induction n with
  | zero => intro i s; rfl
  | succ n ih =>
      intro i s
      show encrypt_loop ek (i + 1) (n + 1) _ = _
      rw [ih (i + 1)]
      have : i + 1 + n = i + (n + 1) := by omega
      rw [this]
      rfl

/-- The decryption loop undoes the encryption loop round by round. -/
theorem decrypt_loop_encrypt_loop (ek : List Byte) (nr : Nat) :
    ∀ (n i j : Nat) (s : AesState), i + n + j = nr + 1 →
      decrypt_loop ek nr j n (encrypt_loop ek i n s) = s := by
  intro n
  induction n with
  | zero => intro i j s _; rfl
  | succ n ih =>
      intro i j s h
      rw [encrypt_loop_snoc]
      show decrypt_loop ek nr (j + 1) n
          (inv_sub_bytes (inv_shift_rows (inv_mix_columns (add_round_key _ ek (nr - j))))) = s
      have hidx : nr - j = i + n := by omega
      rw [hidx, add_round_key_add_round_key, inv_mix_columns_mix_columns,
        inv_shift_rows_shift_rows, inv_sub_bytes_sub_bytes]
      exact ih i (j + 1) s (by omega)

/-- `decrypt` undoes `encrypt` for every state, every expanded-key buffer,
and every round count. -/
theorem decrypt_encrypt (s : AesState) (ek : List Byte) (nr : Nat) :
    decrypt (encrypt s ek nr) ek nr = s := by
  cases nr with
  | zero =>
      show add_round_key (inv_sub_bytes (inv_shift_rows (add_round_key
        (add_round_key (shift_rows (sub_bytes (add_round_key s ek 0))) ek 0) ek 0))) ek 0 = s
      rw [add_round_key_add_round_key, inv_shift_rows_shift_rows, inv_sub_bytes_sub_bytes,
        add_round_key_add_round_key]
  | succ m =>
      show add_round_key (decrypt_loop ek (m + 1) 1 m (inv_sub_bytes (inv_shift_rows
        (add_round_key (add_round_key (shift_rows (sub_bytes (encrypt_loop ek 1 m
          (add_round_key s ek 0)))) ek (m + 1)) ek (m + 1))))) ek 0 = s
      rw [add_round_key_add_round_key, inv_shift_rows_shift_rows, inv_sub_bytes_sub_bytes,
        decrypt_loop_encrypt_loop ek (m + 1) m 1 1 _ (by omega), add_round_key_add_round_key]

/-! ## Conversion between 16-byte slices and the state -/

theorem toList_length (s : AesState) : s.toList.length = 16 := rfl

theorem ofList_toList (s : AesState) : AesState.ofList s.toList = s := rfl

theorem toList_ofList : ∀ l : List Byte, l.length = 16 → (AesState.ofList l).toList = l
  | [_, _, _, _, _, _, _, _, _, _, _, _, _, _, _, _], _ => rfl

/-! ## Key-schedule lemmas -/

theorem ks_step_length (nk i : Nat) (w : List Byte) :
    (ks_step nk i w).length = w.length + 4 := by
  simp [ks_step]

theorem ks_loop_length (nk : Nat) :
    ∀ (fuel i : Nat) (w : List Byte), (ks_loop nk i fuel w).length = w.length + 4 * fuel := by
  intro fuel
  induction fuel with
  | zero => intro i w; rfl
  | succ n ih =>
      intro i w
      show (ks_loop nk (i + 1) n (ks_step nk i w)).length = _
      rw [ih, ks_step_length]
      omega

/-- The fill loop only appends to the buffer. -/
theorem ks_loop_append (nk : Nat) :
    ∀ (fuel i : Nat) (w : List Byte), ∃ t, ks_loop nk i fuel w = w ++ t := by
  intro fuel
  induction fuel with
  | zero => intro i w; exact ⟨[], (List.append_nil w).symm⟩
  | succ n ih =>
      intro i w
      obtain ⟨t, ht⟩ := ih (i + 1) (ks_step nk i w)
      obtain ⟨u, hu⟩ : ∃ u, ks_step nk i w = w ++ u := ⟨_, rfl⟩
      refine ⟨u ++ t, ?_⟩
      show ks_loop nk (i + 1) n (ks_step nk i w) = w ++ (u ++ t)
      rw [ht, hu, List.append_assoc]

theorem wordOf_append {w l : List Byte} {j : Nat} (h : 4 * j + 3 < w.length) :
    wordOf (w ++ l) j = wordOf w j := by
  unfold wordOf
  rw [List.getD_append _ _ _ _ (by omega), List.getD_append _ _ _ _ (by omega),
    List.getD_append _ _ _ _ (by omega), List.getD_append _ _ _ _ h]

/-- Words already present in the buffer are untouched by the fill loop. -/
theorem wordOf_ks_loop {nk fuel i : Nat} {w : List Byte} {j : Nat} (h : 4 * j + 3 < w.length) :
    wordOf (ks_loop nk i fuel w) j = wordOf w j := by
  obtain ⟨t, ht⟩ := ks_loop_append nk fuel i w
  rw [ht, wordOf_append h]

theorem wordOf_append_word {w : List Byte} {j : Nat} (h : w.length = 4 * j)
    (y0 y1 y2 y3 : Byte) : wordOf (w ++ [y0, y1, y2, y3]) j = (y0, y1, y2, y3) := by
  unfold wordOf
  rw [List.getD_append_right _ _ _ _ (by omega), List.getD_append_right _ _ _ _ (by omega),
    List.getD_append_right _ _ _ _ (by omega), List.getD_append_right _ _ _ _ (by omega)]
  have e0 : 4 * j - w.length = 0 := by omega
  have e1 : 4 * j + 1 - w.length = 1 := by omega
  have e2 : 4 * j + 2 - w.length = 2 := by omega
  have e3 : 4 * j + 3 - w.length = 3 := by omega
  rw [e0, e1, e2, e3]
  rfl

/-- The word the fill loop writes at index `i` is `w[i-nk] XOR temp`. -/
theorem wordOf_ks_step {nk i : Nat} {w : List Byte} (h : w.length = 4 * i) :
    wordOf (ks_step nk i w) i =
      word_xor (wordOf w (i - nk)) (ks_temp nk i (wordOf w (i - 1))) := by
  simp only [ks_step]
  rw [wordOf_append_word h]
  rfl

/-- The key-expansion recurrence, read off the final buffer: every word
index `j` the loop fills satisfies `w[j] = w[j-nk] XOR temp(j, w[j-1])`,
with all three words read from the finished expanded key. -/
theorem ks_loop_spec (nk : Nat) (hnk : 1 ≤ nk) :
    ∀ (fuel i : Nat) (w : List Byte), w.length = 4 * i → 1 ≤ i →
      ∀ j, i ≤ j → j < i + fuel →
        wordOf (ks_loop nk i fuel w) j =
          word_xor (wordOf (ks_loop nk i fuel w) (j - nk))
            (ks_temp nk j (wordOf (ks_loop nk i fuel w) (j - 1))) := by
  intro fuel
  induction fuel with
  | zero => intro i w _ _ j hij hlt; omega
  | succ n ih =>
      intro i w hw hi j hij hlt
      have hunf : ks_loop nk i (n + 1) w = ks_loop nk (i + 1) n (ks_step nk i w) := rfl
      rw [hunf]
      rcases Nat.lt_or_ge i j with hlt2 | hge
      · exact ih (i + 1) (ks_step nk i w) (by rw [ks_step_length]; omega) (by omega) j
          (by omega) (by omega)
      · have hj : j = i := by omega
        subst hj
        have hstep : (ks_step nk j w).length = 4 * (j + 1) := by rw [ks_step_length]; omega
        have hs1 : wordOf (ks_loop nk (j + 1) n (ks_step nk j w)) (j - nk) =
            wordOf w (j - nk) := by
          rw [wordOf_ks_loop (by omega)]
          apply wordOf_append
          omega
        have hs2 : wordOf (ks_loop nk (j + 1) n (ks_step nk j w)) (j - 1) =
            wordOf w (j - 1) := by
          rw [wordOf_ks_loop (by omega)]
          apply wordOf_append
          omega
        have hs3 : wordOf (ks_loop nk (j + 1) n (ks_step nk j w)) j =
            wordOf (ks_step nk j w) j := wordOf_ks_loop (by omega)
        rw [hs1, hs2, hs3, wordOf_ks_step hw]

/-- The recurrence transported to `expand_key` for the three legal key
lengths. -/
theorem expand_key_spec (key : List Byte)
    (h : key.length = 16 ∨ key.length = 24 ∨ key.length = 32) :
    ∀ j, key.length / 4 ≤ j → j < 4 * (nr_of key.length + 1) →
      wordOf (expand_key key) j =
        word_xor (wordOf (expand_key key) (j - key.length / 4))
          (ks_temp (key.length / 4) j (wordOf (expand_key key) (j - 1))) := by
  intro j hj1 hj2
  rcases h with h|h|h <;>
    exact ks_loop_spec (key.length / 4) (by omega) _ (key.length / 4) key
      (by omega) (by omega) j hj1
      (by rw [h] at hj2 ⊢; simp only [nr_of] at hj2 ⊢; omega)

theorem expand_key_length (key : List Byte)
    (h : key.length = 16 ∨ key.length = 24 ∨ key.length = 32) :
    (expand_key key).length = (nr_of key.length + 1) * 16 := by
  show (ks_loop _ _ _ key).length = _
  rw [ks_loop_length]
  rcases h with h|h|h <;> rw [h] <;> norm_num [nr_of]

theorem expand_key_take (key : List Byte) : (expand_key key).take key.length = key := by
  obtain ⟨t, ht⟩ := ks_loop_append (key.length / 4) (4 * (nr_of key.length + 1) - key.length / 4)
    (key.length / 4) key
  show (ks_loop _ _ _ key).take key.length = key
  rw [ht]
  exact List.take_left' rfl

/-- Every entry of the `RCON` table, read with a default of 0, is a byte
value. -/
theorem rcon_getD_lt : ∀ j : Nat, RCON.getD j 0 < 256
  | 0 => by decide
  | 1 => by decide
  | 2 => by decide
  | 3 => by decide
  | 4 => by decide
  | 5 => by decide
  | 6 => by decide
  | 7 => by decide
  | 8 => by decide
  | 9 => by decide
  | (j + 10) => by
      rw [List.getD_eq_default]
      · norm_num
      · show (10 : Nat) ≤ j + 10
        omega

/-- The `Rcon` word alters only the first byte of the word it is XORed
into: its three upper bytes are zero. -/
theorem word_xor_rcon (j : Nat) (t : Word) :
    word_xor t (rcon_word j) = (bxor t.1 (rcon_word j).1, t.2.1, t.2.2.1, t.2.2.2) := by
  have h := rcon_getD_lt j
  have h1 : (rcon_word j).2.1 = 0 := by
    apply Fin.ext
    show RCON.getD j 0 / 256 % 256 = 0
    rw [Nat.div_eq_of_lt h]
  have h2 : (rcon_word j).2.2.1 = 0 := by
    apply Fin.ext
    show RCON.getD j 0 / 65536 % 256 = 0
    rw [Nat.div_eq_of_lt (by omega)]
  have h3 : (rcon_word j).2.2.2 = 0 := by
    apply Fin.ext
    show RCON.getD j 0 / 16777216 % 256 = 0
    rw [Nat.div_eq_of_lt (by omega)]
  show (bxor t.1 (rcon_word j).1, bxor t.2.1 (rcon_word j).2.1,
    bxor t.2.2.1 (rcon_word j).2.2.1, bxor t.2.2.2 (rcon_word j).2.2.2) = _
  rw [h1, h2, h3, bxor_zero, bxor_zero, bxor_zero]

/-! ## Helper for construction-time gating -/

theorem key_expansion_isSome (key : List Byte) (len : Nat) :
    (key_expansion key len).isSome ↔
      ((key.length = 16 ∨ key.length = 24 ∨ key.length = 32) ∧
        len = (nr_of key.length + 1) * 16) := by
  unfold key_expansion
  by_cases hv : key.length = 16 ∨ key.length = 24 ∨ key.length = 32
  · rw [if_pos hv]
    by_cases hl : len = (nr_of key.length + 1) * 16
    · simp [hl, hv]
    · simp [hl, hv]
  · simp [hv]

/-! ## The claims -/

/-- C1: for every key of length 16, 24, or 32 bytes and every 16-byte block
`p`, decrypting the encryption of `p` under the cipher constructed from the
key returns `p`. -/
theorem c1_roundtrip (key p : List Byte) (hp : p.length = 16) :
    (key.length = 16 →
      ((ExpandedKey128.new key).bind fun c => (c.encrypt p).bind fun ct => c.decrypt ct) =
        some p) ∧
    (key.length = 24 →
      ((ExpandedKey192.new key).bind fun c => (c.encrypt p).bind fun ct => c.decrypt ct) =
        some p) ∧
    (key.length = 32 →
      ((ExpandedKey256.new key).bind fun c => (c.encrypt p).bind fun ct => c.decrypt ct) =
        some p) := by
  refine ⟨fun h => ?_, fun h => ?_, fun h => ?_⟩
  · have hnew : ExpandedKey128.new key = some ⟨expand_key key⟩ := by
      simp [ExpandedKey128.new, key_expansion, h, nr_of]
    rw [hnew]
    simp [ExpandedKey128.encrypt, ExpandedKey128.decrypt, hp, toList_length]
    rw [ofList_toList, decrypt_encrypt, toList_ofList p hp]
  · have hnew : ExpandedKey192.new key = some ⟨expand_key key⟩ := by
      simp [ExpandedKey192.new, key_expansion, h, nr_of]
    rw [hnew]
    simp [ExpandedKey192.encrypt, ExpandedKey192.decrypt, hp, toList_length]
    rw [ofList_toList, decrypt_encrypt, toList_ofList p hp]
  · have hnew : ExpandedKey256.new key = some ⟨expand_key key⟩ := by
      simp [ExpandedKey256.new, key_expansion, h, nr_of]
    rw [hnew]
    simp [ExpandedKey256.encrypt, ExpandedKey256.decrypt, hp, toList_length]
    rw [ofList_toList, decrypt_encrypt, toList_ofList p hp]

/-- Witness for C1 at the all-zero 16-byte key and all-zero block. -/
theorem c1_roundtrip_witness :
    (List.replicate 16 (0 : Byte)).length = 16 ∧
    ((ExpandedKey128.new (List.replicate 16 0)).bind fun c =>
      (c.encrypt (List.replicate 16 0)).bind fun ct => c.decrypt ct) =
        some (List.replicate 16 (0 : Byte)) :=
  ⟨rfl, (c1_roundtrip (List.replicate 16 0) (List.replicate 16 0) rfl).1 rfl⟩

set_option maxHeartbeats 16000000 in
/-- C2: the FIPS-197 Appendix C known-answer vectors: encrypting
`00112233445566778899aabbccddeeff` under the three standard keys yields
the three standard ciphertexts. -/
theorem c2_known_answer_vectors :
    ((ExpandedKey128.new [0x00, 0x01, 0x02, 0x03, 0x04, 0x05, 0x06, 0x07, 0x08, 0x09, 0x0a, 0x0b, 0x0c, 0x0d, 0x0e, 0x0f]).bind fun c => c.encrypt [0x00, 0x11, 0x22, 0x33, 0x44, 0x55, 0x66, 0x77, 0x88, 0x99, 0xaa, 0xbb, 0xcc, 0xdd, 0xee, 0xff]) = some [0x69, 0xc4, 0xe0, 0xd8, 0x6a, 0x7b, 0x04, 0x30, 0xd8, 0xcd, 0xb7, 0x80, 0x70, 0xb4, 0xc5, 0x5a] ∧
    ((ExpandedKey192.new [0x00, 0x01, 0x02, 0x03, 0x04, 0x05, 0x06, 0x07, 0x08, 0x09, 0x0a, 0x0b, 0x0c, 0x0d, 0x0e, 0x0f, 0x10, 0x11, 0x12, 0x13, 0x14, 0x15, 0x16, 0x17]).bind fun c => c.encrypt [0x00, 0x11, 0x22, 0x33, 0x44, 0x55, 0x66, 0x77, 0x88, 0x99, 0xaa, 0xbb, 0xcc, 0xdd, 0xee, 0xff]) = some [0xdd, 0xa9, 0x7c, 0xa4, 0x86, 0x4c, 0xdf, 0xe0, 0x6e, 0xaf, 0x70, 0xa0, 0xec, 0x0d, 0x71, 0x91] ∧
    ((ExpandedKey256.new [0x00, 0x01, 0x02, 0x03, 0x04, 0x05, 0x06, 0x07, 0x08, 0x09, 0x0a, 0x0b, 0x0c, 0x0d, 0x0e, 0x0f, 0x10, 0x11, 0x12, 0x13, 0x14, 0x15, 0x16, 0x17, 0x18, 0x19, 0x1a, 0x1b, 0x1c, 0x1d, 0x1e, 0x1f]).bind fun c => c.encrypt [0x00, 0x11, 0x22, 0x33, 0x44, 0x55, 0x66, 0x77, 0x88, 0x99, 0xaa, 0xbb, 0xcc, 0xdd, 0xee, 0xff]) = some [0x8e, 0xa2, 0xb7, 0xca, 0x51, 0x67, 0x45, 0xbf, 0xea, 0xfc, 0x49, 0x90, 0x4b, 0x49, 0x60, 0x89] :=
  ⟨by decide, by decide, by decide⟩

/-- C3, counterexample: the claim's condition `Nk > 6 and i % 4 == 4` is
never true (a residue mod 4 is at most 3), so the claim predicts
`w[i] = w[i-Nk] XOR w[i-1]` at every derived index `i` with `i % Nk != 0`.
The code instead applies `SubWord` when `nk > 6 && i % nk == 4`.  For the
all-zero 32-byte key (`Nk = 8`) at `i = 12` (where `12 % 8 = 4 != 0`), the
code's word `w[12]` differs from `w[4] XOR w[11]`. -/
theorem c3_counterexample :
    ¬(wordOf (expand_key (List.replicate 32 0)) 12 =
        word_xor (wordOf (expand_key (List.replicate 32 0)) 4)
          (wordOf (expand_key (List.replicate 32 0)) 11)) := by decide

/-- C3, amended: in the key expansion, for every word index `i` in the
derived range with `i % Nk != 0`, temp (initially `w[i-1]`) is replaced by
`SubWord(temp)` exactly when `Nk > 6` and `i % Nk == 4`, and is left
unchanged for every other such index; `w[i]` is then `w[i-Nk] XOR temp`. -/
theorem c3_amended (key : List Byte)
    (h : key.length = 16 ∨ key.length = 24 ∨ key.length = 32) (i : Nat)
    (h1 : key.length / 4 ≤ i) (h2 : i < 4 * (nr_of key.length + 1))
    (h3 : i % (key.length / 4) ≠ 0) :
    wordOf (expand_key key) i =
      word_xor (wordOf (expand_key key) (i - key.length / 4))
        (if 6 < key.length / 4 ∧ i % (key.length / 4) = 4 then
          sub_word (wordOf (expand_key key) (i - 1))
         else wordOf (expand_key key) (i - 1)) := by
  rw [expand_key_spec key h i h1 h2]
  congr 1
  simp [ks_temp, h3]

/-- Witness for the amended C3 at the all-zero 32-byte key, `i = 12`. -/
theorem c3_amended_witness :
    ((List.replicate 32 (0 : Byte)).length = 16 ∨
      (List.replicate 32 (0 : Byte)).length = 24 ∨
      (List.replicate 32 (0 : Byte)).length = 32) ∧
    (List.replicate 32 (0 : Byte)).length / 4 ≤ 12 ∧
    12 < 4 * (nr_of (List.replicate 32 (0 : Byte)).length + 1) ∧
    12 % ((List.replicate 32 (0 : Byte)).length / 4) ≠ 0 ∧
    wordOf (expand_key (List.replicate 32 0)) 12 =
      word_xor (wordOf (expand_key (List.replicate 32 0)) (12 - (List.replicate 32 (0 : Byte)).length / 4))
        (if 6 < (List.replicate 32 (0 : Byte)).length / 4 ∧
            12 % ((List.replicate 32 (0 : Byte)).length / 4) = 4 then
          sub_word (wordOf (expand_key (List.replicate 32 0)) (12 - 1))
         else wordOf (expand_key (List.replicate 32 0)) (12 - 1)) :=
  ⟨by decide, by decide, by decide, by decide,
    c3_amended (List.replicate 32 0) (by decide) 12 (by decide) (by decide) (by decide)⟩

theorem option_isSome_map {α β : Type} (f : α → β) (o : Option α) :
    (Option.map f o).isSome = o.isSome := by
  cases o <;> rfl

/-- C4, counterexample: the 24-byte all-zero key has a length in
{16, 24, 32}, yet constructing `ExpandedKey128` from it fails (the
`assert_eq!` on the buffer length panics), refuting "construction succeeds
for every key of length 16, 24, or 32". -/
theorem c4_counterexample : ExpandedKey128.new (List.replicate 24 0) = none := rfl

/-- C4, amended: construction is detected at construction time and fails
(by assertion panic, modelled as `none` — no `InvalidKeyLength` error type
exists in the code) whenever the key length does not match the variant:
each fixed-size cipher variant accepts exactly its own key length, 16 for
`ExpandedKey128`, 24 for `ExpandedKey192`, 32 for `ExpandedKey256`; keys
with a length outside {16, 24, 32} are rejected by every variant. -/
theorem c4_amended (key : List Byte) :
    ((ExpandedKey128.new key).isSome ↔ key.length = 16) ∧
    ((ExpandedKey192.new key).isSome ↔ key.length = 24) ∧
    ((ExpandedKey256.new key).isSome ↔ key.length = 32) := by
  refine ⟨?_, ?_, ?_⟩
  · rw [ExpandedKey128.new, option_isSome_map, key_expansion_isSome]
    constructor
    · rintro ⟨hv, hlen⟩
      rcases hv with h|h|h
      · exact h
      · rw [h] at hlen
        simp [nr_of] at hlen
      · rw [h] at hlen
        simp [nr_of] at hlen
    · intro h
      exact ⟨Or.inl h, by rw [h]; simp [nr_of]⟩
  · rw [ExpandedKey192.new, option_isSome_map, key_expansion_isSome]
    constructor
    · rintro ⟨hv, hlen⟩
      rcases hv with h|h|h
      · rw [h] at hlen
        simp [nr_of] at hlen
      · exact h
      · rw [h] at hlen
        simp [nr_of] at hlen
    · intro h
      exact ⟨Or.inr (Or.inl h), by rw [h]; simp [nr_of]⟩
  · rw [ExpandedKey256.new, option_isSome_map, key_expansion_isSome]
    constructor
    · rintro ⟨hv, hlen⟩
      rcases hv with h|h|h
      · rw [h] at hlen
        simp [nr_of] at hlen
      · rw [h] at hlen
        simp [nr_of] at hlen
      · exact h
    · intro h
      exact ⟨Or.inr (Or.inr h), by rw [h]; simp [nr_of]⟩

/-- C5: for every key of length 16, 24, or 32 bytes, the expanded key has
length exactly `(Nr+1)*16` for the `Nr` determined by the key length (10,
12, 14 respectively), and its first `key.length` bytes equal the raw key. -/
theorem c5_expanded_key_shape (key : List Byte)
    (h : key.length = 16 ∨ key.length = 24 ∨ key.length = 32) :
    (expand_key key).length = (nr_of key.length + 1) * 16 ∧
    (expand_key key).take key.length = key ∧
    (key.length = 16 → nr_of key.length = 10) ∧
    (key.length = 24 → nr_of key.length = 12) ∧
    (key.length = 32 → nr_of key.length = 14) := by
  refine ⟨expand_key_length key h, expand_key_take key, ?_, ?_, ?_⟩ <;>
    intro hl <;> simp [nr_of, hl]

/-- Witness for C5 at the all-zero 16-byte key. -/
theorem c5_expanded_key_shape_witness :
    ((List.replicate 16 (0 : Byte)).length = 16 ∨
      (List.replicate 16 (0 : Byte)).length = 24 ∨
      (List.replicate 16 (0 : Byte)).length = 32) ∧
    (expand_key (List.replicate 16 0)).length =
      (nr_of (List.replicate 16 (0 : Byte)).length + 1) * 16 ∧
    (expand_key (List.replicate 16 0)).take (List.replicate 16 (0 : Byte)).length =
      List.replicate 16 0 :=
  ⟨Or.inl rfl,
    (c5_expanded_key_shape (List.replicate 16 0) (Or.inl rfl)).1,
    (c5_expanded_key_shape (List.replicate 16 0) (Or.inl rfl)).2.1⟩

/-- C6: in the key expansion, at every derived word index `i` with
`i % Nk == 0`, `w[i] = w[i-Nk] XOR (SubWord(RotWord(w[i-1])) XOR
Rcon[i/Nk - 1])`, where `RotWord` rotates the word's bytes left by one,
`SubWord` applies the forward S-box to each byte, and the `Rcon` term
alters only the first byte of any word it is XORed into. -/
theorem c6_key_schedule_first_branch (key : List Byte)
    (h : key.length = 16 ∨ key.length = 24 ∨ key.length = 32) (i : Nat)
    (h1 : key.length / 4 ≤ i) (h2 : i < 4 * (nr_of key.length + 1))
    (h3 : i % (key.length / 4) = 0) :
    wordOf (expand_key key) i =
      word_xor (wordOf (expand_key key) (i - key.length / 4))
        (word_xor (sub_word (rot_word (wordOf (expand_key key) (i - 1))))
          (rcon_word (i / (key.length / 4) - 1))) ∧
    (∀ t : Word, word_xor t (rcon_word (i / (key.length / 4) - 1)) =
      (bxor t.1 (rcon_word (i / (key.length / 4) - 1)).1, t.2.1, t.2.2.1, t.2.2.2)) := by
  constructor
  · rw [expand_key_spec key h i h1 h2]
    congr 1
    simp [ks_temp, h3]
  · intro t
    exact word_xor_rcon _ t

/-- Witness for C6 at the all-zero 16-byte key, `i = 4`. -/
theorem c6_key_schedule_first_branch_witness :
    ((List.replicate 16 (0 : Byte)).length = 16 ∨
      (List.replicate 16 (0 : Byte)).length = 24 ∨
      (List.replicate 16 (0 : Byte)).length = 32) ∧
    (List.replicate 16 (0 : Byte)).length / 4 ≤ 4 ∧
    4 < 4 * (nr_of (List.replicate 16 (0 : Byte)).length + 1) ∧
    4 % ((List.replicate 16 (0 : Byte)).length / 4) = 0 ∧
    wordOf (expand_key (List.replicate 16 0)) 4 =
      word_xor (wordOf (expand_key (List.replicate 16 0)) (4 - (List.replicate 16 (0 : Byte)).length / 4))
        (word_xor (sub_word (rot_word (wordOf (expand_key (List.replicate 16 0)) (4 - 1))))
          (rcon_word (4 / ((List.replicate 16 (0 : Byte)).length / 4) - 1))) :=
  ⟨by decide, by decide, by decide, by decide,
    (c6_key_schedule_first_branch (List.replicate 16 0) (by decide) 4 (by decide) (by decide)
      (by decide)).1⟩

/-- C7: `shift_rows` cyclically rotates row `k` (the bytes at positions `p`
with `p % 4 = k`) left by `k` positions across the 4 column bytes of that
row, and `inv_shift_rows` rotates row `k` right by `k` positions; row 0
(the case `k = 0`) is unchanged by both. -/
theorem c7_shift_rows_rotation (s : AesState) (k c : Fin 4) :
    (shift_rows s).get ⟨4 * c.val + k.val, by have := c.isLt; have := k.isLt; omega⟩ =
      s.get ⟨4 * (c + k).val + k.val, by have := (c + k).isLt; have := k.isLt; omega⟩ ∧
    (inv_shift_rows s).get ⟨4 * c.val + k.val, by have := c.isLt; have := k.isLt; omega⟩ =
      s.get ⟨4 * (c - k).val + k.val, by have := (c - k).isLt; have := k.isLt; omega⟩ := by
  refine ⟨?_, ?_⟩ <;> fin_cases k <;> fin_cases c <;> rfl

/-- C8: for every cipher instance, `encrypt` and `decrypt` panic (modelled
as `none`, from `copy_from_slice` into the fixed 16-byte state) on any
input slice whose length is not exactly 16, rather than returning a typed
error or truncating; on a 16-byte input both always return a 16-byte
output. -/
theorem c8_block_length_contract (c128 : ExpandedKey128) (c192 : ExpandedKey192)
    (c256 : ExpandedKey256) (input : List Byte) :
    (input.length ≠ 16 →
      c128.encrypt input = none ∧ c128.decrypt input = none ∧
      c192.encrypt input = none ∧ c192.decrypt input = none ∧
      c256.encrypt input = none ∧ c256.decrypt input = none) ∧
    (input.length = 16 →
      (∃ o, c128.encrypt input = some o ∧ o.length = 16) ∧
      (∃ o, c128.decrypt input = some o ∧ o.length = 16) ∧
      (∃ o, c192.encrypt input = some o ∧ o.length = 16) ∧
      (∃ o, c192.decrypt input = some o ∧ o.length = 16) ∧
      (∃ o, c256.encrypt input = some o ∧ o.length = 16) ∧
      (∃ o, c256.decrypt input = some o ∧ o.length = 16)) := by
  constructor
  · intro h
    refine ⟨?_, ?_, ?_, ?_, ?_, ?_⟩ <;>
      simp [ExpandedKey128.encrypt, ExpandedKey128.decrypt, ExpandedKey192.encrypt,
        ExpandedKey192.decrypt, ExpandedKey256.encrypt, ExpandedKey256.decrypt, h]
  · intro h
    exact ⟨⟨(AesGeneric.encrypt (AesState.ofList input) c128.ek 10).toList,
        by simp [ExpandedKey128.encrypt, h], toList_length _⟩,
      ⟨(AesGeneric.decrypt (AesState.ofList input) c128.ek 10).toList,
        by simp [ExpandedKey128.decrypt, h], toList_length _⟩,
      ⟨(AesGeneric.encrypt (AesState.ofList input) c192.ek 12).toList,
        by simp [ExpandedKey192.encrypt, h], toList_length _⟩,
      ⟨(AesGeneric.decrypt (AesState.ofList input) c192.ek 12).toList,
        by simp [ExpandedKey192.decrypt, h], toList_length _⟩,
      ⟨(AesGeneric.encrypt (AesState.ofList input) c256.ek 14).toList,
        by simp [ExpandedKey256.encrypt, h], toList_length _⟩,
      ⟨(AesGeneric.decrypt (AesState.ofList input) c256.ek 14).toList,
        by simp [ExpandedKey256.decrypt, h], toList_length _⟩⟩

/-- Witness for C8: a 15-byte input makes `encrypt` panic (`none`), a
16-byte input yields a 16-byte output, at concrete cipher instances. -/
theorem c8_block_length_contract_witness :
    ((List.replicate 15 (0 : Byte)).length ≠ 16 ∧
      (ExpandedKey128.mk (List.replicate 176 0)).encrypt (List.replicate 15 0) = none) ∧
    ((List.replicate 16 (0 : Byte)).length = 16 ∧
      ∃ o, (ExpandedKey128.mk (List.replicate 176 0)).encrypt (List.replicate 16 0) = some o ∧
        o.length = 16) :=
  ⟨⟨by decide,
    ((c8_block_length_contract (ExpandedKey128.mk (List.replicate 176 0))
      (ExpandedKey192.mk (List.replicate 208 0)) (ExpandedKey256.mk (List.replicate 240 0))
      (List.replicate 15 0)).1 (by decide)).1⟩,
   ⟨rfl,
    ((c8_block_length_contract (ExpandedKey128.mk (List.replicate 176 0))
      (ExpandedKey192.mk (List.replicate 208 0)) (ExpandedKey256.mk (List.replicate 240 0))
      (List.replicate 16 0)).2 rfl).1⟩⟩

/-- C9: the inverse S-box table inverts the forward S-box: for every byte
`x`, `REVERSE_S_BOX[FORWARD_S_BOX[x]] = x` and
`FORWARD_S_BOX[REVERSE_S_BOX[x]] = x`; consequently `inv_sub_bytes`
composed with `sub_bytes` is the identity on every 16-byte state. -/
theorem c9_sbox_inverse :
    (∀ x : Byte, inv_sub_byte (sub_byte x) = x ∧ sub_byte (inv_sub_byte x) = x) ∧
    (∀ s : AesState, inv_sub_bytes (sub_bytes s) = s) :=
  ⟨fun x => ⟨inv_sub_byte_sub_byte x, sub_byte_inv_sub_byte x⟩, inv_sub_bytes_sub_bytes⟩

/-- GF(2^8) multiplication as the standard prescribes it: double-and-add
over the 8 bits of the multiplier, with `xtime` reducing by the AES
polynomial `x^8 + x^4 + x^3 + x + 1`.  The reference function the
precomputed tables are compared against. -/
def gf_mul_poly (a b : Nat) : Nat :=
  (if b.testBit 0 then a else 0) ^^^
  (if b.testBit 1 then xtime a else 0) ^^^
  (if b.testBit 2 then xtime (xtime a) else 0) ^^^
  (if b.testBit 3 then xtime (xtime (xtime a)) else 0) ^^^
  (if b.testBit 4 then xtime (xtime (xtime (xtime a))) else 0) ^^^
  (if b.testBit 5 then xtime (xtime (xtime (xtime (xtime a)))) else 0) ^^^
  (if b.testBit 6 then xtime (xtime (xtime (xtime (xtime (xtime a))))) else 0) ^^^
  (if b.testBit 7 then xtime (xtime (xtime (xtime (xtime (xtime (xtime a)))))) else 0)

set_option maxHeartbeats 4000000 in
/-- C10: `inv_mix_columns` inverts `mix_columns` (both ways) on every
16-byte state, and the six precomputed multiplication tables agree with
GF(2^8) multiplication by 2, 3, 9, 11, 13, 14 under the AES reduction
polynomial. -/
theorem c10_mix_columns_inverse :
    (∀ s : AesState,
      inv_mix_columns (mix_columns s) = s ∧ mix_columns (inv_mix_columns s) = s) ∧
    (∀ x : Byte,
      (gf_mul2 x).val = gf_mul_poly x.val 2 ∧ (gf_mul3 x).val = gf_mul_poly x.val 3 ∧
      (gf_mul9 x).val = gf_mul_poly x.val 9 ∧ (gf_mul11 x).val = gf_mul_poly x.val 11 ∧
      (gf_mul13 x).val = gf_mul_poly x.val 13 ∧ (gf_mul14 x).val = gf_mul_poly x.val 14) :=
  ⟨fun s => ⟨inv_mix_columns_mix_columns s, mix_columns_inv_mix_columns s⟩, by decide⟩

end AesGeneric
